import Mathlib

/-!
# Verification of the chirpy CHIP-8 emulator

A shallow embedding of the emulator's source (`src/bin.rs`, `src/system.rs`,
`src/periphery.rs`) in Lean 4, together with theorems settling the claims of
the specification against the code.

Conventions of the embedding:
* Machine integers (`u8`, `u16`, `usize`) are `Nat`, with explicit `% 2 ^ w`
  exactly where the Rust code wraps.
* Arrays (`memory`, `stack`, `v_registers`, `framebuffer`) are functions
  `Nat → Nat`; Rust's panicking index operator becomes a bounds check that
  returns an `Except` error, mirroring the std `index out of bounds` panic
  with its length/index payload.
* The `rand::thread_rng().gen::<u8>()` call is an oracle byte passed to
  `cycle` from outside.
* Integer-overflow checks on `usize` subtraction (debug-profile semantics of
  `self.stack_pointer -= 1`) are modelled as the `subtractOverflow` error.
* Real time (`Instant::now`) is an oracle value per call site; the run loop
  is modelled as a step function that also emits the list of observable
  pacer events (cycle, input sampling, render, timer decay, sleep) of the
  iteration, in the order the source performs them.
-/

namespace Chirpy

/-! ## Constants (`system.rs`, `periphery.rs`) -/

def MEMORY_SIZE : Nat := 4096
def TARGET_FPS : Nat := 60
def CPU_CLOCK_IN_HZ : Nat := 1000
def CYCLES_PER_FRAME : Nat := CPU_CLOCK_IN_HZ / TARGET_FPS
/-- Nanoseconds, `Duration::from_nanos(1_000_000_000 / 60)`. -/
def TIMER_INTERVAL : Nat := 1000000000 / 60
/-- Nanoseconds, `Duration::from_nanos(1_000_000_000 / TARGET_FPS)`. -/
def FRAME_INTERVAL : Nat := 1000000000 / TARGET_FPS
def FONTSET_OFFSET : Nat := 0x50
def SCREEN_WIDTH : Nat := 64
def SCREEN_HEIGHT : Nat := 32
def SCREEN_SIZE : Nat := 64 * 32
/-- The capacity of `stack: [usize; 25]`. -/
def STACK_SIZE : Nat := 25

/-! ## Decoder (`bin.rs`) -/

def first_nibble (b : Nat) : Nat := b >>> 12

def second_nibble (b : Nat) : Nat := (b >>> 8) &&& 0xf

def third_nibble (b : Nat) : Nat := (b >>> 4) &&& 0xf

def fourth_nibble (b : Nat) : Nat := b &&& 0xf

def lower_half (b : Nat) : Nat := b &&& 0x00ff

def lower_three (b : Nat) : Nat := b &&& 0x0fff

/-! ## Arithmetic helper lemmas -/

theorem lor_eq_add (x y n : Nat) (hx : x % 2 ^ n = 0) (hy : y < 2 ^ n) :
    x ||| y = x + y := by
  obtain ⟨a, rfl⟩ : ∃ a, x = 2 ^ n * a :=
    ⟨x / 2 ^ n, (Nat.mul_div_cancel' (Nat.dvd_of_mod_eq_zero hx)).symm⟩
  rw [← Nat.mul_add_lt_is_or hy]

theorem lor_shift_add (x y n : Nat) (h : y < 2 ^ n) :
    (x <<< n) ||| y = x * 2 ^ n + y := by
  rw [Nat.shiftLeft_eq, Nat.mul_comm, ← Nat.mul_add_lt_is_or h, Nat.mul_comm]

theorem and_15_eq_mod (x : Nat) : x &&& 15 = x % 16 := by
  have h := Nat.and_pow_two_sub_one_eq_mod x 4
  norm_num at h
  exact h

theorem and_255_eq_mod (x : Nat) : x &&& 255 = x % 256 := by
  have h := Nat.and_pow_two_sub_one_eq_mod x 8
  norm_num at h
  exact h

theorem and_4095_eq_mod (x : Nat) : x &&& 4095 = x % 4096 := by
  have h := Nat.and_pow_two_sub_one_eq_mod x 12
  norm_num at h
  exact h

theorem first_nibble_eq_div (b : Nat) : first_nibble b = b / 4096 := by
  simp [first_nibble, Nat.shiftRight_eq_div_pow]

theorem second_nibble_eq_div_mod (b : Nat) : second_nibble b = b / 256 % 16 := by
  simp [second_nibble, Nat.shiftRight_eq_div_pow, and_15_eq_mod]

theorem third_nibble_eq_div_mod (b : Nat) : third_nibble b = b / 16 % 16 := by
  simp [third_nibble, Nat.shiftRight_eq_div_pow, and_15_eq_mod]

theorem fourth_nibble_eq_mod (b : Nat) : fourth_nibble b = b % 16 := by
  simp [fourth_nibble, and_15_eq_mod]

theorem lower_half_eq_mod (b : Nat) : lower_half b = b % 256 := by
  simp [lower_half, and_255_eq_mod]

theorem lower_three_eq_mod (b : Nat) : lower_three b = b % 4096 := by
  simp [lower_three, and_4095_eq_mod]

/-! ## Machine state (`system.rs`)

The `System` struct of the source.  `usize`/`u16`/`u8` fields are `Nat`;
array fields are functions `Nat → Nat`; the two `Instant` fields are
nanosecond timestamps.  The `Periphery` owned by the struct is represented by
the framebuffer it carries (window and audio sink are external devices). -/

/-- The ways an execution step can abort the process.
`unknownOpcode` models `System::panic_unknown_opcode`, whose message carries
the offending opcode and program counter.  `indexOutOfBounds` models the Rust
`index out of bounds: the len is .. but the index is ..` panic of a slice
access, which carries only the length and the index.  `arithOverflow` models
the debug-profile `attempt to subtract/add with overflow` panic of checked
integer arithmetic, which carries neither. -/
inductive Err where
  | unknownOpcode (opcode pc : Nat)
  | indexOutOfBounds (len index : Nat)
  | arithOverflow
  deriving DecidableEq

structure System where
  program_counter : Nat
  memory : Nat → Nat
  stack : Nat → Nat
  stack_pointer : Nat
  v_registers : Nat → Nat
  index_register : Nat
  delay_timer : Nat
  sound_timer : Nat
  keyboard_input : Nat
  cycles_in_current_frame : Nat
  next_frame_tick : Nat
  next_timer_tick : Nat
  framebuffer : Nat → Nat

/-- Pointwise array update. -/
def upd (f : Nat → Nat) (a v : Nat) : Nat → Nat := fun i => if i = a then v else f i

/-- `self.memory[a]`: panics when `a` is out of bounds. -/
def readMem (m : Nat → Nat) (a : Nat) : Except Err Nat :=
  if a < MEMORY_SIZE then pure (m a) else Except.error (.indexOutOfBounds MEMORY_SIZE a)

/-- `self.memory[a] = v`. -/
def writeMem (m : Nat → Nat) (a v : Nat) : Except Err (Nat → Nat) :=
  if a < MEMORY_SIZE then pure (upd m a v)
  else Except.error (.indexOutOfBounds MEMORY_SIZE a)

/-- `self.stack[a]`. -/
def readStack (st : Nat → Nat) (a : Nat) : Except Err Nat :=
  if a < STACK_SIZE then pure (st a) else Except.error (.indexOutOfBounds STACK_SIZE a)

/-- `self.stack[a] = v`. -/
def writeStack (st : Nat → Nat) (a v : Nat) : Except Err (Nat → Nat) :=
  if a < STACK_SIZE then pure (upd st a v)
  else Except.error (.indexOutOfBounds STACK_SIZE a)

/-- `u16` addition under the debug profile: panics on overflow.  Used at the
`self.index_register + i` sites, the only `+` in the execution path whose
operands can reach the `u16` bound for type-correct values. -/
def addU16 (a b : Nat) : Except Err Nat :=
  if a + b < 65536 then pure (a + b) else Except.error .arithOverflow

/-- `System::panic_unknown_opcode`. -/
def panic_unknown_opcode (s : System) (opcode : Nat) : Except Err System :=
  Except.error (.unknownOpcode opcode s.program_counter)

/-! ## Loop helpers of `System::cycle` -/

/-- The `for i in 0..upper_bound` loop of the `0xF/0x55` branch:
`self.memory[usize::from(self.index_register + i)] = self.v_registers[usize::from(i)]`,
processing `i = 0, 1, …` in order. -/
def storeRegs (regs : Nat → Nat) (I : Nat) (mem : Nat → Nat) :
    Nat → Except Err (Nat → Nat)
  | 0 => pure mem
  | k + 1 => do
      let m ← storeRegs regs I mem k
      let addr ← addU16 I k
      writeMem m addr (regs k)

/-- The `for i in 0..upper_bound` loop of the `0xF/0x65` branch:
`self.v_registers[usize::from(i)] = self.memory[usize::from(self.index_register + i)]`. -/
def loadRegs (mem : Nat → Nat) (I : Nat) (regs : Nat → Nat) :
    Nat → Except Err (Nat → Nat)
  | 0 => pure regs
  | k + 1 => do
      let r ← loadRegs mem I regs k
      let addr ← addU16 I k
      let v ← readMem mem addr
      pure (upd r k v)

/-- The body of the inner `for x_index in 0..8` loop of the `0xD` branch, at a
given `x_index`, acting on the pair (framebuffer, hidden flag). -/
def drawPixel (bitmap top_x top_y y_index x_index : Nat)
    (acc : (Nat → Nat) × Bool) : (Nat → Nat) × Bool :=
  let y := (top_y + y_index) % SCREEN_HEIGHT
  let x := (top_x + (7 - x_index)) % SCREEN_WIDTH
  let framebuffer_index := y * SCREEN_WIDTH + x
  let pixel_value := (bitmap >>> x_index) &&& 1
  let new_value := pixel_value ^^^ acc.1 framebuffer_index
  let hidden :=
    if acc.2 = false ∧ new_value = 0 ∧ acc.1 framebuffer_index ≠ 0 then true else acc.2
  (upd acc.1 framebuffer_index new_value, hidden)

/-- The inner loop of the `0xD` branch for `x_index = 0, …, k - 1`. -/
def drawRow (bitmap top_x top_y y_index : Nat) :
    Nat → ((Nat → Nat) × Bool) → (Nat → Nat) × Bool
  | 0, acc => acc
  | k + 1, acc => drawPixel bitmap top_x top_y y_index k
      (drawRow bitmap top_x top_y y_index k acc)

/-- The outer `for y_index in 0..height` loop of the `0xD` branch for
`y_index = 0, …, n - 1`; each row fetches
`self.memory[usize::from(self.index_register + y_index)]`. -/
def drawSprite (mem : Nat → Nat) (I top_x top_y : Nat) :
    Nat → ((Nat → Nat) × Bool) → Except Err ((Nat → Nat) × Bool)
  | 0, acc => pure acc
  | n + 1, acc => do
      let acc1 ← drawSprite mem I top_x top_y n acc
      let addr ← addU16 I n
      let bitmap ← readMem mem addr
      pure (drawRow bitmap top_x top_y n 8 acc1)

/-- Decimal digits of `n`, most significant first, with explicit fuel so the
definition is structural. -/
def decDigitsAux : Nat → Nat → List Nat
  | 0, _ => []
  | fuel + 1, n => if n < 10 then [n] else decDigitsAux fuel (n / 10) ++ [n % 10]

/-- The digit string `second_nibble_register!().to_string()` of the `0xF/0x33`
branch, as the list of decimal digit values, most significant first.
`String::pop` becomes taking `getLastD 0` (the `unwrap_or('0')` default) and
`dropLast`. -/
def number_string (n : Nat) : List Nat := decDigitsAux (n + 1) n

/-! ## Instruction execution (`System::cycle`) -/

/-- The `0x8` family of `System::cycle`, dispatched on the fourth nibble. -/
def exec8 (s : System) (opcode : Nat) : Except Err System :=
  if fourth_nibble opcode = 0x0 then
    pure { s with
      v_registers := upd s.v_registers (second_nibble opcode)
        (s.v_registers (third_nibble opcode)),
      program_counter := s.program_counter + 2 }
  else if fourth_nibble opcode = 0x1 then
    pure { s with
      v_registers := upd s.v_registers (second_nibble opcode)
        (s.v_registers (second_nibble opcode) ||| s.v_registers (third_nibble opcode)),
      program_counter := s.program_counter + 2 }
  else if fourth_nibble opcode = 0x2 then
    pure { s with
      v_registers := upd s.v_registers (second_nibble opcode)
        (s.v_registers (second_nibble opcode) &&& s.v_registers (third_nibble opcode)),
      program_counter := s.program_counter + 2 }
  else if fourth_nibble opcode = 0x3 then
    pure { s with
      v_registers := upd s.v_registers (second_nibble opcode)
        (s.v_registers (second_nibble opcode) ^^^ s.v_registers (third_nibble opcode)),
      program_counter := s.program_counter + 2 }
  else if fourth_nibble opcode = 0x4 then
    -- overflowing_add; the flag register is written before the result
    pure { s with
      v_registers := upd
        (upd s.v_registers 15
          (if 256 ≤ s.v_registers (second_nibble opcode) +
              s.v_registers (third_nibble opcode) then 1 else 0))
        (second_nibble opcode)
        ((s.v_registers (second_nibble opcode) +
          s.v_registers (third_nibble opcode)) % 256),
      program_counter := s.program_counter + 2 }
  else if fourth_nibble opcode = 0x5 then
    pure { s with
      v_registers := upd
        (upd s.v_registers 15
          (if s.v_registers (second_nibble opcode) <
              s.v_registers (third_nibble opcode) then 0 else 1))
        (second_nibble opcode)
        ((s.v_registers (second_nibble opcode) + 256 -
          s.v_registers (third_nibble opcode)) % 256),
      program_counter := s.program_counter + 2 }
  else if fourth_nibble opcode = 0x6 then
    -- the flag write lands before the in-place shift of the same array
    pure { s with
      v_registers := upd
        (upd s.v_registers 15 (s.v_registers (second_nibble opcode) &&& 1))
        (second_nibble opcode)
        ((upd s.v_registers 15 (s.v_registers (second_nibble opcode) &&& 1))
          (second_nibble opcode) >>> 1),
      program_counter := s.program_counter + 2 }
  else if fourth_nibble opcode = 0x7 then
    pure { s with
      v_registers := upd
        (upd s.v_registers 15
          (if s.v_registers (third_nibble opcode) <
              s.v_registers (second_nibble opcode) then 0 else 1))
        (second_nibble opcode)
        ((s.v_registers (third_nibble opcode) + 256 -
          s.v_registers (second_nibble opcode)) % 256),
      program_counter := s.program_counter + 2 }
  else if fourth_nibble opcode = 0xE then
    pure { s with
      v_registers := upd
        (upd s.v_registers 15
          ((s.v_registers (second_nibble opcode) &&& 0x80) >>> 7))
        (second_nibble opcode)
        (((upd s.v_registers 15
            ((s.v_registers (second_nibble opcode) &&& 0x80) >>> 7))
          (second_nibble opcode) <<< 1) % 256),
      program_counter := s.program_counter + 2 }
  else panic_unknown_opcode s opcode

/-- The `0xF` family of `System::cycle`, dispatched on the lower byte. -/
def execF (s : System) (opcode : Nat) : Except Err System :=
  if lower_half opcode = 0x07 then
    pure { s with
      v_registers := upd s.v_registers (second_nibble opcode) s.delay_timer,
      program_counter := s.program_counter + 2 }
  else if lower_half opcode = 0x0A then
    -- non-blocking key wait: no state change at all while no key is latched
    if s.keyboard_input ≠ 0xff then
      pure { s with
        v_registers := upd s.v_registers (second_nibble opcode) s.keyboard_input,
        program_counter := s.program_counter + 2 }
    else pure s
  else if lower_half opcode = 0x15 then
    pure { s with
      delay_timer := s.v_registers (second_nibble opcode),
      program_counter := s.program_counter + 2 }
  else if lower_half opcode = 0x18 then
    -- play_sound() is a periphery effect with no machine state in this model
    pure { s with
      sound_timer := s.v_registers (second_nibble opcode),
      program_counter := s.program_counter + 2 }
  else if lower_half opcode = 0x1E then
    pure { s with
      index_register :=
        (s.index_register + s.v_registers (second_nibble opcode)) % 65536,
      program_counter := s.program_counter + 2 }
  else if lower_half opcode = 0x29 then
    pure { s with
      index_register := s.v_registers (second_nibble opcode) * 5 + FONTSET_OFFSET,
      program_counter := s.program_counter + 2 }
  else if lower_half opcode = 0x33 then do
    let a0 ← addU16 s.index_register 0
    let m0 ← writeMem s.memory a0
      ((number_string (s.v_registers (second_nibble opcode))).getLastD 0)
    let a1 ← addU16 s.index_register 1
    let m1 ← writeMem m0 a1
      ((number_string (s.v_registers (second_nibble opcode))).dropLast.getLastD 0)
    let a2 ← addU16 s.index_register 2
    let m2 ← writeMem m1 a2
      ((number_string (s.v_registers (second_nibble opcode))).dropLast.dropLast.getLastD 0)
    pure { s with memory := m2, program_counter := s.program_counter + 2 }
  else if lower_half opcode = 0x55 then do
    let m ← storeRegs s.v_registers s.index_register s.memory (second_nibble opcode + 1)
    pure { s with memory := m, program_counter := s.program_counter + 2 }
  else if lower_half opcode = 0x65 then do
    let r ← loadRegs s.memory s.index_register s.v_registers (second_nibble opcode + 1)
    pure { s with v_registers := r, program_counter := s.program_counter + 2 }
  else panic_unknown_opcode s opcode

/-- The big opcode matcher of `System::cycle`, after the fetch. -/
def execOpcode (s : System) (opcode rand : Nat) : Except Err System :=
  if first_nibble opcode = 0x0 then
    if opcode = 0xE0 then
      pure { s with
        framebuffer := fun _ => 0,
        program_counter := s.program_counter + 2 }
    else if opcode = 0xEE then do
      let ret ← readStack s.stack s.stack_pointer
      if s.stack_pointer = 0 then Except.error .arithOverflow
      else pure { s with program_counter := ret, stack_pointer := s.stack_pointer - 1 }
    else
      pure { s with program_counter := s.program_counter + 2 }
  else if first_nibble opcode = 0x1 then
    pure { s with program_counter := lower_three opcode }
  else if first_nibble opcode = 0x2 then do
    let st ← writeStack s.stack (s.stack_pointer + 1) (s.program_counter + 2)
    pure { s with
      stack_pointer := s.stack_pointer + 1,
      stack := st,
      program_counter := lower_three opcode }
  else if first_nibble opcode = 0x3 then
    if s.v_registers (second_nibble opcode) = lower_half opcode then
      pure { s with program_counter := s.program_counter + 4 }
    else pure { s with program_counter := s.program_counter + 2 }
  else if first_nibble opcode = 0x4 then
    if s.v_registers (second_nibble opcode) = lower_half opcode then
      pure { s with program_counter := s.program_counter + 2 }
    else pure { s with program_counter := s.program_counter + 4 }
  else if first_nibble opcode = 0x5 then
    if fourth_nibble opcode = 0x0 then
      if s.v_registers (second_nibble opcode) = s.v_registers (third_nibble opcode) then
        pure { s with program_counter := s.program_counter + 4 }
      else pure { s with program_counter := s.program_counter + 2 }
    else panic_unknown_opcode s opcode
  else if first_nibble opcode = 0x6 then
    pure { s with
      v_registers := upd s.v_registers (second_nibble opcode) (lower_half opcode),
      program_counter := s.program_counter + 2 }
  else if first_nibble opcode = 0x7 then
    pure { s with
      v_registers := upd s.v_registers (second_nibble opcode)
        ((s.v_registers (second_nibble opcode) + lower_half opcode) % 256),
      program_counter := s.program_counter + 2 }
  else if first_nibble opcode = 0x8 then
    exec8 s opcode
  else if first_nibble opcode = 0x9 then
    if fourth_nibble opcode = 0x0 then
      if s.v_registers (second_nibble opcode) = s.v_registers (third_nibble opcode) then
        pure { s with program_counter := s.program_counter + 2 }
      else pure { s with program_counter := s.program_counter + 4 }
    else panic_unknown_opcode s opcode
  else if first_nibble opcode = 0xA then
    pure { s with
      index_register := lower_three opcode,
      program_counter := s.program_counter + 2 }
  else if first_nibble opcode = 0xB then
    pure { s with program_counter := lower_three opcode + s.v_registers 0 }
  else if first_nibble opcode = 0xC then
    pure { s with
      v_registers := upd s.v_registers (second_nibble opcode)
        ((rand % 256) &&& lower_half opcode),
      program_counter := s.program_counter + 2 }
  else if first_nibble opcode = 0xD then do
    let res ← drawSprite s.memory s.index_register
      (s.v_registers (second_nibble opcode)) (s.v_registers (third_nibble opcode))
      (fourth_nibble opcode) (s.framebuffer, false)
    pure { s with
      framebuffer := res.1,
      v_registers := upd s.v_registers 15 (if res.2 then 1 else 0),
      program_counter := s.program_counter + 2 }
  else if first_nibble opcode = 0xE then
    if lower_half opcode = 0x9E then
      if s.keyboard_input = s.v_registers (second_nibble opcode) then
        pure { s with program_counter := s.program_counter + 4 }
      else pure { s with program_counter := s.program_counter + 2 }
    else if lower_half opcode = 0xA1 then
      if s.keyboard_input ≠ s.v_registers (second_nibble opcode) then
        pure { s with program_counter := s.program_counter + 4 }
      else pure { s with program_counter := s.program_counter + 2 }
    else panic_unknown_opcode s opcode
  else if first_nibble opcode = 0xF then
    execF s opcode
  else panic_unknown_opcode s opcode

/-- `System::cycle`: fetch the big-endian opcode at the program counter, then
execute it.  `rand` is the oracle byte for `rand::thread_rng().gen::<u8>()`. -/
def cycle (s : System) (rand : Nat) : Except Err System := do
  let upperByte ← readMem s.memory s.program_counter
  let lowerByte ← readMem s.memory (s.program_counter + 1)
  execOpcode s ((upperByte <<< 8) ||| lowerByte) rand

/-! ## Initialization (`System::default`, `System::copy_buffer_to_memory`) -/

/-- The built-in hex-digit sprite table. -/
def fontset : List Nat :=
  [0xF0, 0x90, 0x90, 0x90, 0xF0,
   0x20, 0x60, 0x20, 0x20, 0x70,
   0xF0, 0x10, 0xF0, 0x80, 0xF0,
   0xF0, 0x10, 0xF0, 0x10, 0xF0,
   0x90, 0x90, 0xF0, 0x10, 0x10,
   0xF0, 0x80, 0xF0, 0x10, 0xF0,
   0xF0, 0x80, 0xF0, 0x90, 0xF0,
   0xF0, 0x10, 0x20, 0x40, 0x40,
   0xF0, 0x90, 0xF0, 0x90, 0xF0,
   0xF0, 0x90, 0xF0, 0x10, 0xF0,
   0xF0, 0x90, 0xF0, 0x90, 0x90,
   0xE0, 0x90, 0xE0, 0x90, 0xE0,
   0xF0, 0x80, 0x80, 0x80, 0xF0,
   0xE0, 0x90, 0x90, 0x90, 0xE0,
   0xF0, 0x80, 0xF0, 0x80, 0xF0,
   0xF0, 0x80, 0xF0, 0x80, 0x80]

/-- Copy a buffer into memory byte by byte starting at `offset`. -/
def copyList (m : Nat → Nat) (offset : Nat) : List Nat → (Nat → Nat)
  | [] => m
  | d :: rest => copyList (upd m offset d) (offset + 1) rest

/-- `System::copy_buffer_to_memory`; `none` models the
"does not fit into memory" panic. -/
def copy_buffer_to_memory (m : Nat → Nat) (buffer : List Nat) (offset : Nat) :
    Option (Nat → Nat) :=
  if buffer.length + offset ≤ MEMORY_SIZE then some (copyList m offset buffer) else none

/-- `System::default()`: zeroed state, program counter at `0x200`, fontset
copied to `FONTSET_OFFSET`; the two `Instant::now()` fields are time zero. -/
def System.default : System where
  program_counter := 0x200
  memory := copyList (fun _ => 0) FONTSET_OFFSET fontset
  stack := fun _ => 0
  stack_pointer := 0
  v_registers := fun _ => 0
  index_register := 0
  delay_timer := 0
  sound_timer := 0
  keyboard_input := 0
  cycles_in_current_frame := 0
  next_frame_tick := 0
  next_timer_tick := 0
  framebuffer := fun _ => 0

/-! ## Pacer (`System::run` and its helpers)

The run loop is modelled one iteration at a time.  Real time is an oracle:
each iteration receives the values `Instant::now()` would return at the three
call sites, plus the sampled key and the random byte.  Each iteration also
reports the list of observable pacer events it performs, in source order. -/

inductive Event where
  | cycleEvent
  | inputSample
  | render
  | timerDecay
  | sleepEvent
  deriving DecidableEq

/-- Per-iteration oracle inputs. -/
structure FrameOracle where
  rand : Nat
  key : Nat
  nowFrame : Nat
  nowTimer : Nat
  nowSleep : Nat

/-- `System::get_input`: latch the key code the periphery reports. -/
def get_input (s : System) (key : Nat) : System := { s with keyboard_input := key }

/-- `System::tick_frame`: on the frame deadline, reset the cycle budget and
render (a `render` event). -/
def tick_frame (s : System) (now : Nat) : System × List Event :=
  if s.next_frame_tick ≤ now then
    ({ s with
        cycles_in_current_frame := 0,
        next_frame_tick := now + FRAME_INTERVAL }, [Event.render])
  else (s, [])

/-- `System::tick_timers`: on the timer deadline, decay both timers
(saturating at zero; `stop_sound` is a periphery effect). -/
def tick_timers (s : System) (now : Nat) : System × List Event :=
  if s.next_timer_tick ≤ now then
    ({ s with
        delay_timer := if s.delay_timer ≠ 0 then s.delay_timer - 1 else s.delay_timer,
        sound_timer := if s.sound_timer ≠ 0 then s.sound_timer - 1 else s.sound_timer,
        next_timer_tick := now + TIMER_INTERVAL }, [Event.timerDecay])
  else (s, [])

/-- `System::sleep_if_needed`: sleep when more than 1 ms (in nanoseconds)
remains until the frame deadline. -/
def sleep_if_needed (s : System) (now : Nat) : List Event :=
  if now < s.next_frame_tick then
    if 1000000 < s.next_frame_tick - now then [Event.sleepEvent] else []
  else []

/-- One iteration of the `loop` in `System::run`. -/
def runStep (s : System) (o : FrameOracle) : Except Err (System × List Event) :=
  if s.cycles_in_current_frame < CYCLES_PER_FRAME then do
    let s1 ← cycle s o.rand
    pure ({ s1 with cycles_in_current_frame := s1.cycles_in_current_frame + 1 },
      [Event.cycleEvent])
  else
    pure ((tick_timers (tick_frame (get_input s o.key) o.nowFrame).1 o.nowTimer).1,
      Event.inputSample ::
        ((tick_frame (get_input s o.key) o.nowFrame).2 ++
          (tick_timers (tick_frame (get_input s o.key) o.nowFrame).1 o.nowTimer).2 ++
          sleep_if_needed
            (tick_timers (tick_frame (get_input s o.key) o.nowFrame).1 o.nowTimer).1
            o.nowSleep))

/-! ## Basic lemmas about the embedding -/

@[simp] theorem upd_same (f : Nat → Nat) (a v : Nat) : upd f a v a = v := by
  simp [upd]

theorem upd_ne (f : Nat → Nat) (a v i : Nat) (h : i ≠ a) : upd f a v i = f i := by
  simp [upd, h]

theorem upd_apply (f : Nat → Nat) (a v i : Nat) :
    upd f a v i = if i = a then v else f i := rfl

theorem bind_ok {α β : Type} (a : α) (f : α → Except Err β) :
    (Except.ok a : Except Err α) >>= f = f a := rfl

theorem readMem_lt (m : Nat → Nat) (a : Nat) (h : a < MEMORY_SIZE) :
    readMem m a = Except.ok (m a) := by
  simp [readMem, h, pure, Except.pure]

theorem writeMem_lt (m : Nat → Nat) (a v : Nat) (h : a < MEMORY_SIZE) :
    writeMem m a v = Except.ok (upd m a v) := by
  simp [writeMem, h, pure, Except.pure]

theorem addU16_lt (a b : Nat) (h : a + b < 65536) :
    addU16 a b = Except.ok (a + b) := by
  simp [addU16, h, pure, Except.pure]

theorem fetch_eq (hi lo : Nat) (hlo : lo < 256) :
    (hi <<< 8) ||| lo = hi * 256 + lo := by
  have h := lor_shift_add hi lo 8 (by norm_num; omega)
  simpa using h

/-- Unfold the fetch of `cycle` once the program counter is in bounds and the
low byte is an actual byte. -/
theorem cycle_eq (s : System) (r : Nat)
    (h1 : s.program_counter + 1 < MEMORY_SIZE)
    (hlo : s.memory (s.program_counter + 1) < 256) :
    cycle s r =
      execOpcode s
        (s.memory s.program_counter * 256 + s.memory (s.program_counter + 1)) r := by
  unfold cycle
  rw [readMem_lt _ _ (by omega), bind_ok, readMem_lt _ _ h1, bind_ok,
    fetch_eq _ _ hlo]

/-- A convenient all-zero machine state for concrete runs. -/
def zeroState : System where
  program_counter := 0x200
  memory := fun _ => 0
  stack := fun _ => 0
  stack_pointer := 0
  v_registers := fun _ => 0
  index_register := 0
  delay_timer := 0
  sound_timer := 0
  keyboard_input := 0
  cycles_in_current_frame := 0
  next_frame_tick := 0
  next_timer_tick := 0
  framebuffer := fun _ => 0

/-- **C10.** The decoder field extractors of `bin.rs` are total functions of the
16-bit word (totality is by construction: they are plain `Nat` functions), and
recomposing the extracted fields reproduces the word exactly:
`(first_nibble w <<< 12) ||| (second_nibble w <<< 8) ||| (third_nibble w <<< 4)
||| fourth_nibble w = w`, while `lower_half w = w % 256` and
`lower_three w = w % 4096`. -/
theorem decoder_recompose (w : Nat) (hw : w < 65536) :
    (((first_nibble w <<< 12) ||| (second_nibble w <<< 8)) |||
        (third_nibble w <<< 4)) ||| fourth_nibble w = w ∧
      lower_half w = w % 256 ∧ lower_three w = w % 4096 := by
  refine ⟨?_, lower_half_eq_mod w, lower_three_eq_mod w⟩
  rw [first_nibble_eq_div, second_nibble_eq_div_mod, third_nibble_eq_div_mod,
    fourth_nibble_eq_mod]
  simp only [Nat.shiftLeft_eq]
  rw [lor_eq_add (w / 4096 * 2 ^ 12) (w / 256 % 16 * 2 ^ 8) 12 (by omega)
    (by omega)]
  rw [lor_eq_add _ (w / 16 % 16 * 2 ^ 4) 8 (by omega) (by omega)]
  rw [lor_eq_add _ (w % 16) 4 (by omega) (by omega)]
  omega

/-- Witness for `decoder_recompose` at the word `0xabcd` used by the
repository's own unit tests. -/
theorem decoder_recompose_witness :
    (0xabcd : Nat) < 65536 ∧
      ((((first_nibble 0xabcd <<< 12) ||| (second_nibble 0xabcd <<< 8)) |||
          (third_nibble 0xabcd <<< 4)) ||| fourth_nibble 0xabcd = 0xabcd ∧
        lower_half 0xabcd = 0xabcd % 256 ∧ lower_three 0xabcd = 0xabcd % 4096) :=
  ⟨by decide, decoder_recompose 0xabcd (by decide)⟩

/-! ## C6: key wait (Fx0A) -/

/-- **C6.** When the key-wait instruction `Fx0A` executes while the keyboard
latch holds the no-key sentinel `0xff`, the machine state is entirely
unchanged — in particular the program counter does not advance, so the same
instruction re-executes on the next cycle; when the latch holds anything
else, that key code is stored in the target register and the program counter
advances by 2. -/
theorem key_wait_fx0a (s : System) (r x : Nat) (hx : x < 16)
    (hpc : s.program_counter + 1 < MEMORY_SIZE)
    (hb0 : s.memory s.program_counter = 0xF0 + x)
    (hb1 : s.memory (s.program_counter + 1) = 0x0A) :
    cycle s r = Except.ok
      (if s.keyboard_input = 0xff then s
       else { s with
         v_registers := upd s.v_registers x s.keyboard_input,
         program_counter := s.program_counter + 2 }) := by
  rw [cycle_eq s r hpc (by rw [hb1]; norm_num), hb0, hb1]
  have hfn : first_nibble ((240 + x) * 256 + 10) = 15 := by
    rw [first_nibble_eq_div]; omega
  have hsn : second_nibble ((240 + x) * 256 + 10) = x := by
    rw [second_nibble_eq_div_mod]; omega
  have hlh : lower_half ((240 + x) * 256 + 10) = 10 := by
    rw [lower_half_eq_mod]; omega
  unfold execOpcode
  rw [hfn]
  norm_num
  unfold execF
  rw [hlh, hsn]
  norm_num
  by_cases hk : s.keyboard_input = 0xff
  · simp [hk, pure, Except.pure]
  · simp [hk, pure, Except.pure]

/-- Witness for `key_wait_fx0a`: a waiting state with the sentinel latched is
returned unchanged, and the same state with key `7` latched stores `7` into
register 1 and advances the program counter. -/
theorem key_wait_fx0a_witness :
    (cycle { zeroState with
        memory := upd (upd zeroState.memory 0x200 0xF1) 0x201 0x0A,
        keyboard_input := 0xff } 0 = Except.ok
      (if ({ zeroState with
                memory := upd (upd zeroState.memory 0x200 0xF1) 0x201 0x0A,
                keyboard_input := 0xff } : System).keyboard_input = 0xff then
        { zeroState with
          memory := upd (upd zeroState.memory 0x200 0xF1) 0x201 0x0A,
          keyboard_input := 0xff }
       else
        { { zeroState with
              memory := upd (upd zeroState.memory 0x200 0xF1) 0x201 0x0A,
              keyboard_input := 0xff } with
          v_registers := upd ({ zeroState with
              memory := upd (upd zeroState.memory 0x200 0xF1) 0x201 0x0A,
              keyboard_input := 0xff } : System).v_registers 1
            ({ zeroState with
                memory := upd (upd zeroState.memory 0x200 0xF1) 0x201 0x0A,
                keyboard_input := 0xff } : System).keyboard_input,
          program_counter := ({ zeroState with
              memory := upd (upd zeroState.memory 0x200 0xF1) 0x201 0x0A,
              keyboard_input := 0xff } : System).program_counter + 2 })) ∧
    (cycle { zeroState with
        memory := upd (upd zeroState.memory 0x200 0xF1) 0x201 0x0A,
        keyboard_input := 7 } 0 = Except.ok
      (if ({ zeroState with
                memory := upd (upd zeroState.memory 0x200 0xF1) 0x201 0x0A,
                keyboard_input := 7 } : System).keyboard_input = 0xff then
        { zeroState with
          memory := upd (upd zeroState.memory 0x200 0xF1) 0x201 0x0A,
          keyboard_input := 7 }
       else
        { { zeroState with
              memory := upd (upd zeroState.memory 0x200 0xF1) 0x201 0x0A,
              keyboard_input := 7 } with
          v_registers := upd ({ zeroState with
              memory := upd (upd zeroState.memory 0x200 0xF1) 0x201 0x0A,
              keyboard_input := 7 } : System).v_registers 1
            ({ zeroState with
                memory := upd (upd zeroState.memory 0x200 0xF1) 0x201 0x0A,
                keyboard_input := 7 } : System).keyboard_input,
          program_counter := ({ zeroState with
              memory := upd (upd zeroState.memory 0x200 0xF1) 0x201 0x0A,
              keyboard_input := 7 } : System).program_counter + 2 })) :=
  ⟨key_wait_fx0a _ 0 1 (by norm_num) (by norm_num [zeroState, MEMORY_SIZE])
      (by norm_num [zeroState, upd]) (by norm_num [zeroState, upd]),
    key_wait_fx0a _ 0 1 (by norm_num) (by norm_num [zeroState, MEMORY_SIZE])
      (by norm_num [zeroState, upd]) (by norm_num [zeroState, upd])⟩

/-! ## C7: initial keyboard latch -/

/-- The default state with the two-byte program `F1 0A` (wait for key into
register 1) loaded at `0x200`. -/
def c7KeyWaitState : System :=
  { System.default with
    memory :=
      (copy_buffer_to_memory System.default.memory [0xF1, 0x0A] 0x200).getD
        System.default.memory }

/-- The default state with the two-byte program `E1 9E` (skip if the key in
register 1 is pressed) loaded at `0x200`. -/
def c7SkipState : System :=
  { System.default with
    memory :=
      (copy_buffer_to_memory System.default.memory [0xE1, 0x9E] 0x200).getD
        System.default.memory }

/-- **C7.** `System::default` initializes the keyboard latch to `0`, not the
no-key sentinel `0xff`; hence before any frame-boundary input sample runs,
the machine behaves as if key 0 were pressed: a key-wait `F10A` completes
immediately, storing 0 into register 1 and advancing the program counter by
2, and a skip-if-key-pressed `E19E` with register value 0 takes the skip
(program counter advances by 4). -/
theorem keyboard_latch_starts_at_zero :
    System.default.keyboard_input = 0 ∧
      System.default.keyboard_input ≠ 0xff ∧
      cycle c7KeyWaitState 0 = Except.ok
        { c7KeyWaitState with
          v_registers := upd c7KeyWaitState.v_registers 1 0,
          program_counter := 0x202 } ∧
      cycle c7SkipState 0 = Except.ok
        { c7SkipState with program_counter := 0x204 } :=
  ⟨rfl, by decide, rfl, rfl⟩

/-! ## C1: decimal store (Fx33) -/

/-- A state about to execute `F1 33` (decimal store of register 1) with
register 1 holding 215 and the index register at `0x300`. -/
def c1State : System :=
  { zeroState with
    memory := upd (upd zeroState.memory 0x200 0xF1) 0x201 0x33,
    v_registers := upd zeroState.v_registers 1 215,
    index_register := 0x300 }

/-- **C1.** Executing the decimal-store instruction `F133` with register
value 215 writes the ONES digit 5 at the index-register address, the tens
digit 1 at that address plus one, and the HUNDREDS digit 2 at that address
plus two — the reverse of the order stated by the specification and by the
source's own comment (`Hundreds at index register … Ones at index register
plus two`): `String::pop` removes the last (least significant) character of
the digit string, yet the loop writes the popped digits at increasing
addresses. -/
theorem bcd_store_writes_reversed_digits :
    ∃ s1, cycle c1State 0 = Except.ok s1 ∧
      s1.memory 0x300 = 5 ∧ s1.memory 0x301 = 1 ∧ s1.memory 0x302 = 2 ∧
      s1.program_counter = 0x202 ∧ s1.index_register = 0x300 :=
  ⟨_, rfl, rfl, rfl, rfl, rfl, rfl⟩

/-! ## C3: add/subtract carry and borrow flags (8xy4, 8xy5, 8xy7) -/

/-- A state about to execute `8F04` (add register 0 into register 15) with
register 15 holding 200 and register 0 holding 100. -/
def c3State : System :=
  { zeroState with
    memory := upd (upd zeroState.memory 0x200 0x8F) 0x201 0x04,
    v_registers := upd (upd zeroState.v_registers 15 200) 0 100 }

/-- **C3, counterexample.** The claim quantifies over every register index
`x`, but for `x = 15` the wrapped result overwrites the flag register:
adding 100 (register 0) into register 15 holding 200 carries out, yet
afterwards register 15 holds the wrapped sum 44, not the claimed carry flag
1. -/
theorem add_flag_overwritten_when_x_is_flag :
    ∃ s1, cycle c3State 0 = Except.ok s1 ∧
      256 ≤ c3State.v_registers 15 + c3State.v_registers 0 ∧
      s1.v_registers 15 = 44 ∧ ¬s1.v_registers 15 = 1 :=
  ⟨_, rfl, by decide, by decide, by decide⟩

/-- **C3, amended.** For every destination register index `x ≠ 15` and every
source index `y`, with byte-valued registers: `8xy4` sets the flag register
(register 15) to 1 exactly when the 8-bit addition carries out and stores the
sum wrapped modulo 256; `8xy5` and `8xy7` set the flag to 1 exactly when the
minuend is at least the subtrahend (no borrow) and to 0 otherwise, and store
the difference wrapped modulo 256.  (When `x = 15` the wrapped result
overwrites the flag, as the counterexample shows.) -/
theorem arith_carry_borrow_flags (s : System) (r x y k : Nat)
    (hx : x < 16) (hy : y < 16) (hx15 : x ≠ 15)
    (hk : k = 4 ∨ k = 5 ∨ k = 7)
    (hpc : s.program_counter + 1 < MEMORY_SIZE)
    (hb0 : s.memory s.program_counter = 128 + x)
    (hb1 : s.memory (s.program_counter + 1) = 16 * y + k)
    (hvx : s.v_registers x < 256) (hvy : s.v_registers y < 256) :
    ∃ s1, cycle s r = Except.ok s1 ∧
      s1.program_counter = s.program_counter + 2 ∧
      s1.memory = s.memory ∧
      s1.index_register = s.index_register ∧
      (∀ i, i ≠ x → i ≠ 15 → s1.v_registers i = s.v_registers i) ∧
      (k = 4 →
        s1.v_registers 15 =
          (if 256 ≤ s.v_registers x + s.v_registers y then 1 else 0) ∧
        s1.v_registers x =
          (if s.v_registers x + s.v_registers y < 256 then
            s.v_registers x + s.v_registers y
           else s.v_registers x + s.v_registers y - 256)) ∧
      (k = 5 →
        s1.v_registers 15 =
          (if s.v_registers y ≤ s.v_registers x then 1 else 0) ∧
        s1.v_registers x =
          (if s.v_registers y ≤ s.v_registers x then
            s.v_registers x - s.v_registers y
           else 256 + s.v_registers x - s.v_registers y)) ∧
      (k = 7 →
        s1.v_registers 15 =
          (if s.v_registers x ≤ s.v_registers y then 1 else 0) ∧
        s1.v_registers x =
          (if s.v_registers x ≤ s.v_registers y then
            s.v_registers y - s.v_registers x
           else 256 + s.v_registers y - s.v_registers x)) := by
  have hk16 : k < 16 := by omega
  rw [cycle_eq s r hpc (by rw [hb1]; omega), hb0, hb1]
  have hfn : first_nibble ((128 + x) * 256 + (16 * y + k)) = 8 := by
    rw [first_nibble_eq_div]; omega
  have hsn : second_nibble ((128 + x) * 256 + (16 * y + k)) = x := by
    rw [second_nibble_eq_div_mod]; omega
  have htn : third_nibble ((128 + x) * 256 + (16 * y + k)) = y := by
    rw [third_nibble_eq_div_mod]; omega
  have hfo : fourth_nibble ((128 + x) * 256 + (16 * y + k)) = k := by
    rw [fourth_nibble_eq_mod]; omega
  unfold execOpcode
  rw [hfn]
  norm_num
  unfold exec8
  rw [hfo, hsn, htn]
  have h15x : (15 : Nat) ≠ x := fun h => hx15 h.symm
  rcases hk with rfl | rfl | rfl
  · norm_num
    refine ⟨_, rfl, rfl, rfl, rfl, ?_, ?_, ?_⟩ <;> dsimp only
    · intro i hix hi15
      rw [upd_ne _ _ _ _ hix, upd_ne _ _ _ _ hi15]
    · rw [upd_ne _ _ _ _ h15x, upd_same]
    · rw [upd_same]
      split <;> omega
  · norm_num
    refine ⟨_, rfl, rfl, rfl, rfl, ?_, ?_, ?_⟩ <;> dsimp only
    · intro i hix hi15
      rw [upd_ne _ _ _ _ hix, upd_ne _ _ _ _ hi15]
    · rw [upd_ne _ _ _ _ h15x, upd_same]
      split
      · split <;> omega
      · split <;> omega
    · rw [upd_same]
      split <;> omega
  · norm_num
    refine ⟨_, rfl, rfl, rfl, rfl, ?_, ?_, ?_⟩ <;> dsimp only
    · intro i hix hi15
      rw [upd_ne _ _ _ _ hix, upd_ne _ _ _ _ hi15]
    · rw [upd_ne _ _ _ _ h15x, upd_same]
      split
      · split <;> omega
      · split <;> omega
    · rw [upd_same]
      split <;> omega

/-- A state about to execute `8124` (add register 2 into register 1) with
register 1 holding 255 and register 2 holding 2. -/
def c3AddState : System :=
  { zeroState with
    memory := upd (upd zeroState.memory 0x200 0x81) 0x201 0x24,
    v_registers := upd (upd zeroState.v_registers 1 255) 2 2 }

/-- A state about to execute `8125` (subtract register 2 from register 1)
with register 1 holding 3 and register 2 holding 5. -/
def c3SubState : System :=
  { zeroState with
    memory := upd (upd zeroState.memory 0x200 0x81) 0x201 0x25,
    v_registers := upd (upd zeroState.v_registers 1 3) 2 5 }

/-- Witness for `arith_carry_borrow_flags`, at the spec's own examples:
adding 255 and 2 yields 1 with carry flag 1, and subtracting 5 from 3 yields
254 with borrow flag 0. -/
theorem arith_carry_borrow_flags_witness :
    (∃ s1, cycle c3AddState 0 = Except.ok s1 ∧
      s1.v_registers 1 = 1 ∧ s1.v_registers 15 = 1) ∧
    (∃ s1, cycle c3SubState 0 = Except.ok s1 ∧
      s1.v_registers 1 = 254 ∧ s1.v_registers 15 = 0) := by
  constructor
  · obtain ⟨s1, hok, hpc2, hmem, hidx, hreg, hk4, hk5, hk7⟩ :=
      arith_carry_borrow_flags c3AddState 0 1 2 4 (by decide) (by decide)
        (by decide) (Or.inl rfl) (by decide) (by decide) (by decide)
        (by decide) (by decide)
    refine ⟨s1, hok, ?_, ?_⟩
    · rw [(hk4 rfl).2]; decide
    · rw [(hk4 rfl).1]; decide
  · obtain ⟨s1, hok, hpc2, hmem, hidx, hreg, hk4, hk5, hk7⟩ :=
      arith_carry_borrow_flags c3SubState 0 1 2 5 (by decide) (by decide)
        (by decide) (Or.inr (Or.inl rfl)) (by decide) (by decide) (by decide)
        (by decide) (by decide)
    refine ⟨s1, hok, ?_, ?_⟩
    · rw [(hk5 rfl).2]; decide
    · rw [(hk5 rfl).1]; decide

/-! ## C4: shifts (8xy6, 8xyE) -/

theorem and128_shr7 (v : Nat) : (v &&& 128) >>> 7 = v / 128 % 2 := by
  rw [show (128 : Nat) = 2 ^ 7 by norm_num, Nat.and_two_pow,
    Nat.shiftRight_eq_div_pow, Nat.mul_div_cancel _ (by norm_num),
    Nat.testBit_to_div_mod]
  have h128 : (2 : Nat) ^ 7 = 128 := by norm_num
  rw [h128]
  rcases Nat.mod_two_eq_zero_or_one (v / 128) with h | h <;> simp [h]

/-- A state about to execute `8F06` (shift register 15 right) with register
15 holding 3. -/
def c4State : System :=
  { zeroState with
    memory := upd (upd zeroState.memory 0x200 0x8F) 0x201 0x06,
    v_registers := upd zeroState.v_registers 15 3 }

/-- **C4, counterexample.** The claim explicitly includes `x = 15`, but for
`x = 15` the pre-shift least-significant bit stored in the flag register is
itself shifted: starting from register 15 = 3, the claim requires register
15 to end at 1 (both as the pre-shift LSB and as `3 >> 1`), yet the code
leaves it at 0. -/
theorem shift_flag_clobbered_when_x_is_flag :
    ∃ s1, cycle c4State 0 = Except.ok s1 ∧
      c4State.v_registers 15 % 2 = 1 ∧
      c4State.v_registers 15 / 2 = 1 ∧
      s1.v_registers 15 = 0 :=
  ⟨_, rfl, by decide, by decide, by decide⟩

/-- **C4, amended.** For every destination register index `x ≠ 15` and every
`y` (whose register is ignored): `8xy6` stores the pre-shift
least-significant bit of register `x` in the flag register and halves
register `x`; `8xyE` stores the pre-shift most-significant bit in the flag
register and doubles register `x` modulo 256.  When `x = 15` the flag write
happens first and the shift is applied on top of it, so register 15 ends at
0 after `8F_6` and at twice its pre-shift most-significant bit after
`8F_E`. -/
theorem shift_ops (s : System) (r x y k : Nat)
    (hx : x < 16) (hy : y < 16) (hk : k = 6 ∨ k = 14)
    (hpc : s.program_counter + 1 < MEMORY_SIZE)
    (hb0 : s.memory s.program_counter = 128 + x)
    (hb1 : s.memory (s.program_counter + 1) = 16 * y + k) :
    ∃ s1, cycle s r = Except.ok s1 ∧
      s1.program_counter = s.program_counter + 2 ∧
      s1.memory = s.memory ∧
      s1.index_register = s.index_register ∧
      (∀ i, i ≠ x → i ≠ 15 → s1.v_registers i = s.v_registers i) ∧
      (k = 6 → x ≠ 15 →
        s1.v_registers 15 = s.v_registers x % 2 ∧
        s1.v_registers x = s.v_registers x / 2) ∧
      (k = 6 → x = 15 → s1.v_registers 15 = 0) ∧
      (k = 14 → x ≠ 15 →
        s1.v_registers 15 = s.v_registers x / 128 % 2 ∧
        s1.v_registers x = s.v_registers x * 2 % 256) ∧
      (k = 14 → x = 15 → s1.v_registers 15 = 2 * (s.v_registers x / 128 % 2)) := by
  have hk16 : k < 16 := by omega
  rw [cycle_eq s r hpc (by rw [hb1]; omega), hb0, hb1]
  have hfn : first_nibble ((128 + x) * 256 + (16 * y + k)) = 8 := by
    rw [first_nibble_eq_div]; omega
  have hsn : second_nibble ((128 + x) * 256 + (16 * y + k)) = x := by
    rw [second_nibble_eq_div_mod]; omega
  have htn : third_nibble ((128 + x) * 256 + (16 * y + k)) = y := by
    rw [third_nibble_eq_div_mod]; omega
  have hfo : fourth_nibble ((128 + x) * 256 + (16 * y + k)) = k := by
    rw [fourth_nibble_eq_mod]; omega
  unfold execOpcode
  rw [hfn]
  norm_num
  unfold exec8
  rw [hfo, hsn]
  rcases hk with rfl | rfl
  · norm_num
    refine ⟨_, rfl, rfl, rfl, rfl, ?_, ?_, ?_⟩ <;> dsimp only
    · intro i hix hi15
      simp only [upd_apply, Nat.shiftRight_eq_div_pow, Nat.and_one_is_mod, pow_one]
      first
      | (split_ifs <;> omega)
      | omega
    · intro hx15
      constructor <;>
        · simp only [upd_apply, Nat.shiftRight_eq_div_pow, Nat.and_one_is_mod,
            pow_one]
          first
          | (split_ifs <;> omega)
          | omega
    · intro hx15
      subst hx15
      simp only [upd_apply, Nat.shiftRight_eq_div_pow, Nat.and_one_is_mod, pow_one]
      first
      | (split_ifs <;> omega)
      | omega
  · norm_num
    refine ⟨_, rfl, rfl, rfl, rfl, ?_, ?_, ?_⟩ <;> dsimp only
    · intro i hix hi15
      simp only [and128_shr7]
      simp only [upd_apply, Nat.shiftLeft_eq, pow_one]
      first
      | (split_ifs <;> omega)
      | omega
    · intro hx15
      constructor <;>
        · simp only [and128_shr7]
          simp only [upd_apply, Nat.shiftLeft_eq, pow_one]
          first
          | (split_ifs <;> omega)
          | omega
    · intro hx15
      subst hx15
      simp only [and128_shr7]
      simp only [upd_apply, Nat.shiftLeft_eq, pow_one]
      first
      | (split_ifs <;> omega)
      | omega

/-- A state about to execute `8206` (shift register 2 right) with register 2
holding 5. -/
def c4ShrState : System :=
  { zeroState with
    memory := upd (upd zeroState.memory 0x200 0x82) 0x201 0x06,
    v_registers := upd zeroState.v_registers 2 5 }

/-- A state about to execute `820E` (shift register 2 left) with register 2
holding 0x81. -/
def c4ShlState : System :=
  { zeroState with
    memory := upd (upd zeroState.memory 0x200 0x82) 0x201 0x0E,
    v_registers := upd zeroState.v_registers 2 0x81 }

/-- Witness for `shift_ops`: shifting register 2 = 5 right yields 2 with
flag 1 (the pre-shift LSB); shifting register 2 = 0x81 left yields 2 with
flag 1 (the pre-shift MSB). -/
theorem shift_ops_witness :
    (∃ s1, cycle c4ShrState 0 = Except.ok s1 ∧
      s1.v_registers 2 = 2 ∧ s1.v_registers 15 = 1) ∧
    (∃ s1, cycle c4ShlState 0 = Except.ok s1 ∧
      s1.v_registers 2 = 2 ∧ s1.v_registers 15 = 1) := by
  constructor
  · obtain ⟨s1, hok, hpc2, hmem, hidx, hreg, h6, h6f, h14, h14f⟩ :=
      shift_ops c4ShrState 0 2 0 6 (by decide) (by decide) (Or.inl rfl)
        (by decide) (by decide) (by decide)
    refine ⟨s1, hok, ?_, ?_⟩
    · rw [(h6 rfl (by decide)).2]; decide
    · rw [(h6 rfl (by decide)).1]; decide
  · obtain ⟨s1, hok, hpc2, hmem, hidx, hreg, h6, h6f, h14, h14f⟩ :=
      shift_ops c4ShlState 0 2 0 14 (by decide) (by decide) (Or.inr rfl)
        (by decide) (by decide) (by decide)
    refine ⟨s1, hok, ?_, ?_⟩
    · rw [(h14 rfl (by decide)).2]; decide
    · rw [(h14 rfl (by decide)).1]; decide

/-! ## C8: register block store/load (Fx55, Fx65) -/

/-- The `Fx55` loop writes registers `0..n-1` to memory at `I..I+n-1` and
leaves every other memory cell unchanged. -/
theorem storeRegs_ok (regs : Nat → Nat) (I : Nat) (mem : Nat → Nat) (n : Nat)
    (h : I + n ≤ MEMORY_SIZE) :
    ∃ m, storeRegs regs I mem n = Except.ok m ∧
      (∀ k, k < n → m (I + k) = regs k) ∧
      (∀ j, (∀ k, k < n → j ≠ I + k) → m j = mem j) := by
  induction n with
  | zero => exact ⟨mem, rfl, fun k hk => absurd hk (by omega), fun j _ => rfl⟩
  | succ n ih =>
      obtain ⟨m, hm, h1, h2⟩ := ih (by omega)
      refine ⟨upd m (I + n) (regs n), ?_, ?_, ?_⟩
      · show (storeRegs regs I mem n >>= fun m => addU16 I n >>= fun addr =>
          writeMem m addr (regs n)) = _
        rw [hm, bind_ok, addU16_lt _ _ (by
          have hms : MEMORY_SIZE = 4096 := rfl
          omega), bind_ok, writeMem_lt _ _ _ (by omega)]
      · intro k hk
        by_cases hkn : k = n
        · subst hkn; rw [upd_same]
        · rw [upd_ne _ _ _ _ (by omega)]
          exact h1 k (by omega)
      · intro j hj
        rw [upd_ne _ _ _ _ (hj n (by omega))]
        exact h2 j fun k hk => hj k (by omega)

/-- The `Fx65` loop loads registers `0..n-1` from memory at `I..I+n-1` and
leaves the remaining registers unchanged. -/
theorem loadRegs_ok (mem : Nat → Nat) (I : Nat) (regs : Nat → Nat) (n : Nat)
    (h : I + n ≤ MEMORY_SIZE) :
    ∃ r, loadRegs mem I regs n = Except.ok r ∧
      (∀ k, k < n → r k = mem (I + k)) ∧
      (∀ k, n ≤ k → r k = regs k) := by
  induction n with
  | zero => exact ⟨regs, rfl, fun k hk => absurd hk (by omega), fun k _ => rfl⟩
  | succ n ih =>
      obtain ⟨r, hr, h1, h2⟩ := ih (by omega)
      refine ⟨upd r n (mem (I + n)), ?_, ?_, ?_⟩
      · show (loadRegs mem I regs n >>= fun r => addU16 I n >>= fun addr =>
          readMem mem addr >>= fun v => pure (upd r n v)) = _
        rw [hr, bind_ok, addU16_lt _ _ (by
          have hms : MEMORY_SIZE = 4096 := rfl
          omega), bind_ok, readMem_lt _ _ (by omega), bind_ok]
        rfl
      · intro k hk
        by_cases hkn : k = n
        · subst hkn; rw [upd_same]
        · rw [upd_ne _ _ _ _ (by omega)]
          exact h1 k (by omega)
      · intro k hk
        rw [upd_ne _ _ _ _ (by omega)]
        exact h2 k (by omega)

/-- **C8.** For every register count nibble `x` and in-bounds index-register
range: executing register block store `Fx55` and then register block load
`Fx65` (the next instruction, with the stored range not overlapping the
second instruction's bytes) restores ALL registers — in particular registers
`0..x` — to their original values, and neither instruction changes the index
register.  The store advances the program counter by 2 and leaves every
register untouched; the load advances it by 2 again. -/
theorem block_store_load_roundtrip (s : System) (r1 r2 x : Nat) (hx : x < 16)
    (hpc : s.program_counter + 3 < MEMORY_SIZE)
    (hI : s.index_register + (x + 1) ≤ MEMORY_SIZE)
    (hdisj : ∀ k, k ≤ x →
      s.index_register + k ≠ s.program_counter + 2 ∧
      s.index_register + k ≠ s.program_counter + 3)
    (hb0 : s.memory s.program_counter = 240 + x)
    (hb1 : s.memory (s.program_counter + 1) = 0x55)
    (hb2 : s.memory (s.program_counter + 2) = 240 + x)
    (hb3 : s.memory (s.program_counter + 3) = 0x65) :
    ∃ s1 s2, cycle s r1 = Except.ok s1 ∧ cycle s1 r2 = Except.ok s2 ∧
      s1.v_registers = s.v_registers ∧
      s1.index_register = s.index_register ∧
      s1.program_counter = s.program_counter + 2 ∧
      (∀ k, k ≤ x → s1.memory (s.index_register + k) = s.v_registers k) ∧
      s2.index_register = s.index_register ∧
      s2.program_counter = s.program_counter + 4 ∧
      (∀ i, s2.v_registers i = s.v_registers i) := by
  obtain ⟨m, hm, hm1, hm2⟩ :=
    storeRegs_ok s.v_registers s.index_register s.memory (x + 1) hI
  have hfn : first_nibble ((240 + x) * 256 + 85) = 15 := by
    rw [first_nibble_eq_div]; omega
  have hsn : second_nibble ((240 + x) * 256 + 85) = x := by
    rw [second_nibble_eq_div_mod]; omega
  have hlh : lower_half ((240 + x) * 256 + 85) = 85 := by
    rw [lower_half_eq_mod]; omega
  have hfn2 : first_nibble ((240 + x) * 256 + 101) = 15 := by
    rw [first_nibble_eq_div]; omega
  have hsn2 : second_nibble ((240 + x) * 256 + 101) = x := by
    rw [second_nibble_eq_div_mod]; omega
  have hlh2 : lower_half ((240 + x) * 256 + 101) = 101 := by
    rw [lower_half_eq_mod]; omega
  have hcyc1 : cycle s r1 = Except.ok
      { s with memory := m, program_counter := s.program_counter + 2 } := by
    rw [cycle_eq s r1 (by omega) (by rw [hb1]; norm_num), hb0, hb1]
    unfold execOpcode
    rw [hfn]
    norm_num
    unfold execF
    rw [hlh, hsn]
    norm_num
    rw [hm]
    rfl
  obtain ⟨r, hr, hr1, hr2⟩ :=
    loadRegs_ok m s.index_register s.v_registers (x + 1) hI
  have hcyc2 : cycle
      ({ s with memory := m, program_counter := s.program_counter + 2 }) r2 =
      Except.ok
        ({ s with
            memory := m
            v_registers := r
            program_counter := s.program_counter + 4 }) := by
    have hm2a : m (s.program_counter + 2) = 240 + x := by
      rw [hm2 _ (fun k hk => Ne.symm (hdisj k (by omega)).1), hb2]
    have hm3a : m (s.program_counter + 3) = 0x65 := by
      rw [hm2 _ (fun k hk => Ne.symm (hdisj k (by omega)).2), hb3]
    rw [cycle_eq _ r2 (by dsimp only; omega) (by dsimp only; rw [hm3a]; norm_num)]
    dsimp only
    rw [hm2a, hm3a]
    unfold execOpcode
    rw [hfn2]
    norm_num
    unfold execF
    rw [hlh2, hsn2]
    norm_num
    rw [hr]
    show Except.ok _ = Except.ok _
    have hpc4 : s.program_counter + 2 + 2 = s.program_counter + 4 := by omega
    rw [hpc4]
  refine ⟨_, _, hcyc1, hcyc2, rfl, rfl, rfl, ?_, rfl, rfl, ?_⟩
  · intro k hk
    exact hm1 k (by omega)
  · intro i
    dsimp only
    by_cases hi : i ≤ x
    · rw [hr1 i (by omega), hm1 i (by omega)]
    · exact hr2 i (by omega)

/-- A state with `F3 55 F3 65` (store registers 0..3, then load registers
0..3) at `0x200`, index register `0x300`, and registers 0..3 holding
10, 20, 30, 40. -/
def c8State : System :=
  { zeroState with
    memory := upd (upd (upd (upd zeroState.memory 0x200 0xF3) 0x201 0x55)
      0x202 0xF3) 0x203 0x65,
    v_registers := upd (upd (upd (upd zeroState.v_registers 0 10) 1 20) 2 30) 3 40,
    index_register := 0x300 }

/-- Witness for `block_store_load_roundtrip`: storing registers 0..3 and
loading them back from `0x300` reproduces 10, 20, 30, 40 with the index
register still `0x300`. -/
theorem block_store_load_roundtrip_witness :
    ∃ s1 s2, cycle c8State 0 = Except.ok s1 ∧ cycle s1 0 = Except.ok s2 ∧
      s2.v_registers 0 = 10 ∧ s2.v_registers 1 = 20 ∧ s2.v_registers 2 = 30 ∧
      s2.v_registers 3 = 40 ∧ s2.index_register = 0x300 ∧
      s2.program_counter = 0x204 := by
  obtain ⟨s1, s2, h1, h2, hv1, hi1, hp1, hmem, hi2, hp2, hv2⟩ :=
    block_store_load_roundtrip c8State 0 0 3 (by decide) (by decide) (by decide)
      (by decide) (by decide) (by decide) (by decide) (by decide)
  refine ⟨s1, s2, h1, h2, ?_, ?_, ?_, ?_, ?_, ?_⟩
  · rw [hv2 0]; decide
  · rw [hv2 1]; decide
  · rw [hv2 2]; decide
  · rw [hv2 3]; decide
  · rw [hi2]; decide
  · rw [hp2]; decide

/-! ## C2: pacer ordering in the run loop -/

/-- A machine state whose per-frame cycle budget is exhausted and whose
frame and timer deadlines have both passed at time 0. -/
def c2RunState : System := { zeroState with cycles_in_current_frame := 16 }

/-- An oracle for one iteration: every `Instant::now()` call returns 0. -/
def c2Oracle : FrameOracle :=
  { rand := 0, key := 0xff, nowFrame := 0, nowTimer := 0, nowSleep := 0 }

/-- **C2, counterexample.** In a budget-exhausted iteration with both
deadlines due, the run loop emits input sampling, then RENDER, then TIMER
DECAY, then sleep — not the claimed input, decay, render, sleep: `run` calls
`tick_frame` (which renders) before `tick_timers` (which decays). -/
theorem pacer_renders_before_timer_decay :
    ∃ p, runStep c2RunState c2Oracle = Except.ok p ∧
      p.2 = [Event.inputSample, Event.render, Event.timerDecay,
        Event.sleepEvent] ∧
      p.2 ≠ [Event.inputSample, Event.timerDecay, Event.render,
        Event.sleepEvent] :=
  ⟨_, rfl, rfl, by decide⟩

/-- `sleep_if_needed` emits its event exactly when more than 1 ms remains
until the frame deadline. -/
theorem sleep_if_needed_eq (s : System) (now : Nat) :
    sleep_if_needed s now =
      (if now < s.next_frame_tick ∧ 1000000 < s.next_frame_tick - now then
        [Event.sleepEvent] else []) := by
  unfold sleep_if_needed
  split_ifs with h1 h2 <;> simp_all

/-- **C2, amended.** In every iteration of the run loop: if the per-frame
cycle budget is exhausted, the iteration samples input first, then renders
(only if the frame deadline has elapsed), then decays the timers (only if
the timer deadline has elapsed), and finally sleeps (only if more than 1 ms
remains until the next frame deadline) — in that order; if the budget is not
exhausted the iteration performs exactly one cycle and none of the other
steps.  Hence all cycles budgeted for a frame complete before that frame's
render and before that frame's timer decay, and input becomes visible to
the machine only at frame granularity. -/
theorem pacer_frame_ordering (s : System) (o : FrameOracle) (s1 : System)
    (l : List Event) (h : runStep s o = Except.ok (s1, l)) :
    (CYCLES_PER_FRAME ≤ s.cycles_in_current_frame →
      l = Event.inputSample ::
        ((if s.next_frame_tick ≤ o.nowFrame then [Event.render] else []) ++
          (if s.next_timer_tick ≤ o.nowTimer then [Event.timerDecay] else []) ++
          (if o.nowSleep < s1.next_frame_tick ∧
              1000000 < s1.next_frame_tick - o.nowSleep then
            [Event.sleepEvent] else []))) ∧
    (s.cycles_in_current_frame < CYCLES_PER_FRAME → l = [Event.cycleEvent]) := by
  unfold runStep at h
  by_cases hb : s.cycles_in_current_frame < CYCLES_PER_FRAME
  · rw [if_pos hb] at h
    refine ⟨fun hc => absurd hb (by omega), fun _ => ?_⟩
    cases hcy : cycle s o.rand with
    | error e =>
        rw [hcy] at h
        exact absurd h (by simp [Bind.bind, Except.bind])
    | ok s2 =>
        rw [hcy, bind_ok] at h
        simp only [pure, Except.pure, Except.ok.injEq, Prod.mk.injEq] at h
        exact h.2.symm
  · rw [if_neg hb] at h
    refine ⟨fun _ => ?_, fun hlt => absurd hlt hb⟩
    unfold get_input tick_frame tick_timers at h
    dsimp only at h
    by_cases hf : s.next_frame_tick ≤ o.nowFrame
    · rw [if_pos hf] at h
      dsimp only at h
      by_cases ht : s.next_timer_tick ≤ o.nowTimer
      · rw [if_pos ht] at h
        dsimp only at h
        rw [sleep_if_needed_eq] at h
        simp only [pure, Except.pure] at h
        have h2 := Except.ok.inj h
        rw [Prod.mk.injEq] at h2
        obtain ⟨rfl, rfl⟩ := h2
        dsimp only
        rw [if_pos hf, if_pos ht]
      · rw [if_neg ht] at h
        dsimp only at h
        rw [sleep_if_needed_eq] at h
        simp only [pure, Except.pure] at h
        have h2 := Except.ok.inj h
        rw [Prod.mk.injEq] at h2
        obtain ⟨rfl, rfl⟩ := h2
        dsimp only
        rw [if_pos hf, if_neg ht]
    · rw [if_neg hf] at h
      dsimp only at h
      by_cases ht : s.next_timer_tick ≤ o.nowTimer
      · rw [if_pos ht] at h
        dsimp only at h
        rw [sleep_if_needed_eq] at h
        simp only [pure, Except.pure] at h
        have h2 := Except.ok.inj h
        rw [Prod.mk.injEq] at h2
        obtain ⟨rfl, rfl⟩ := h2
        dsimp only
        rw [if_neg hf, if_pos ht]
      · rw [if_neg ht] at h
        dsimp only at h
        rw [sleep_if_needed_eq] at h
        simp only [pure, Except.pure] at h
        have h2 := Except.ok.inj h
        rw [Prod.mk.injEq] at h2
        obtain ⟨rfl, rfl⟩ := h2
        dsimp only
        rw [if_neg hf, if_neg ht]

/-- Witness for `pacer_frame_ordering` at the concrete budget-exhausted
state and all-zero oracle: the iteration emits input sampling, render, timer
decay and sleep in source order. -/
theorem pacer_frame_ordering_witness :
    CYCLES_PER_FRAME ≤ c2RunState.cycles_in_current_frame ∧
      ∃ p, runStep c2RunState c2Oracle = Except.ok p ∧
        p.2 = Event.inputSample ::
          ((if c2RunState.next_frame_tick ≤ c2Oracle.nowFrame then
              [Event.render] else []) ++
            (if c2RunState.next_timer_tick ≤ c2Oracle.nowTimer then
              [Event.timerDecay] else []) ++
            (if c2Oracle.nowSleep < p.1.next_frame_tick ∧
                1000000 < p.1.next_frame_tick - c2Oracle.nowSleep then
              [Event.sleepEvent] else [])) := by
  refine ⟨by decide, _, rfl, ?_⟩
  obtain ⟨ha, hb⟩ := pacer_frame_ordering c2RunState c2Oracle _ _ rfl
  exact ha (by decide)

/-! ## C9: execution errors -/

/-- Whether an abort diagnostic carries the offending opcode and the program
counter.  Only the `panic_unknown_opcode` message does; the std panics behind
slice indexing and checked arithmetic do not. -/
def reportsOpcodeAndPc : Err → Prop
  | .unknownOpcode _ _ => True
  | .indexOutOfBounds _ _ => False
  | .arithOverflow => False

/-- A std-panic abort: not an unknown-opcode report, and when it is an
`index out of bounds` panic its length payload is the memory's or the call
stack's. -/
def Err.benign : Err → Prop
  | .unknownOpcode _ _ => False
  | .indexOutOfBounds l _ => l = MEMORY_SIZE ∨ l = STACK_SIZE
  | .arithOverflow => True

theorem pure_not_error {α : Type} (a : α) (e : Err) :
    (pure a : Except Err α) = Except.error e → Err.benign e := fun h =>
  Except.noConfusion h

theorem bind_benign {α β : Type} {x : Except Err α} {f : α → Except Err β}
    (hx : ∀ e, x = Except.error e → Err.benign e)
    (hf : ∀ a e, f a = Except.error e → Err.benign e) :
    ∀ e, x >>= f = Except.error e → Err.benign e := by
  intro e h
  cases x with
  | error e2 =>
      have hx2 : (Except.error e2 : Except Err α) >>= f = Except.error e2 := rfl
      rw [hx2] at h
      have he : e2 = e := Except.error.inj h
      exact he ▸ hx e2 rfl
  | ok a =>
      rw [bind_ok] at h
      exact hf a e h

theorem readMem_error (m : Nat → Nat) (a : Nat) :
    ∀ e, readMem m a = Except.error e → Err.benign e := by
  intro e h
  unfold readMem at h
  split at h
  · exact absurd h (by simp [pure, Except.pure])
  · rw [(Except.error.inj h).symm]; exact Or.inl rfl

theorem writeMem_error (m : Nat → Nat) (a v : Nat) :
    ∀ e, writeMem m a v = Except.error e → Err.benign e := by
  intro e h
  unfold writeMem at h
  split at h
  · exact absurd h (by simp [pure, Except.pure])
  · rw [(Except.error.inj h).symm]; exact Or.inl rfl

theorem readStack_error (st : Nat → Nat) (a : Nat) :
    ∀ e, readStack st a = Except.error e → Err.benign e := by
  intro e h
  unfold readStack at h
  split at h
  · exact absurd h (by simp [pure, Except.pure])
  · rw [(Except.error.inj h).symm]; exact Or.inr rfl

theorem writeStack_error (st : Nat → Nat) (a v : Nat) :
    ∀ e, writeStack st a v = Except.error e → Err.benign e := by
  intro e h
  unfold writeStack at h
  split at h
  · exact absurd h (by simp [pure, Except.pure])
  · rw [(Except.error.inj h).symm]; exact Or.inr rfl

theorem addU16_error (a b : Nat) :
    ∀ e, addU16 a b = Except.error e → Err.benign e := by
  intro e h
  unfold addU16 at h
  split at h
  · exact absurd h (by simp [pure, Except.pure])
  · rw [(Except.error.inj h).symm]; trivial

theorem storeRegs_error (regs : Nat → Nat) (I : Nat) (mem : Nat → Nat) (n : Nat) :
    ∀ e, storeRegs regs I mem n = Except.error e → Err.benign e := by
  induction n with
  | zero => exact fun e h => Except.noConfusion h
  | succ n ih =>
      exact bind_benign ih fun m =>
        bind_benign (addU16_error I n) fun addr => writeMem_error m addr (regs n)

theorem loadRegs_error (mem : Nat → Nat) (I : Nat) (regs : Nat → Nat) (n : Nat) :
    ∀ e, loadRegs mem I regs n = Except.error e → Err.benign e := by
  induction n with
  | zero => exact fun e h => Except.noConfusion h
  | succ n ih =>
      exact bind_benign ih fun r =>
        bind_benign (addU16_error I n) fun addr =>
          bind_benign (readMem_error mem addr) fun v => pure_not_error _

theorem drawSprite_error (mem : Nat → Nat) (I top_x top_y n : Nat)
    (acc : (Nat → Nat) × Bool) :
    ∀ e, drawSprite mem I top_x top_y n acc = Except.error e → Err.benign e := by
  induction n generalizing acc with
  | zero => exact fun e h => Except.noConfusion h
  | succ n ih =>
      exact bind_benign (ih acc) fun acc1 =>
        bind_benign (addU16_error I n) fun addr =>
          bind_benign (readMem_error mem addr) fun bmp => pure_not_error _

set_option maxHeartbeats 1600000 in
/-- Every abort of the `0x8` family is either the unknown-opcode report for
exactly the dispatched opcode at the current program counter, or a std
panic. -/
theorem exec8_error (s : System) (opc : Nat) (e : Err)
    (h : exec8 s opc = Except.error e) :
    e = Err.unknownOpcode opc s.program_counter ∨ Err.benign e := by
  unfold exec8 at h
  repeat' split at h
  all_goals
    first
    | exact Except.noConfusion h
    | (unfold panic_unknown_opcode at h
       exact Or.inl (Except.error.inj h).symm)

set_option maxHeartbeats 1600000 in
/-- Every abort of the `0xF` family is either the unknown-opcode report for
exactly the dispatched opcode at the current program counter, or a std
panic. -/
theorem execF_error (s : System) (opc : Nat) (e : Err)
    (h : execF s opc = Except.error e) :
    e = Err.unknownOpcode opc s.program_counter ∨ Err.benign e := by
  unfold execF at h
  repeat' split at h
  all_goals
    first
    | exact Except.noConfusion h
    | exact Or.inr ((bind_benign (addU16_error s.index_register 0) fun a0 =>
        bind_benign (writeMem_error s.memory a0 _) fun m0 =>
          bind_benign (addU16_error s.index_register 1) fun a1 =>
            bind_benign (writeMem_error m0 a1 _) fun m1 =>
              bind_benign (addU16_error s.index_register 2) fun a2 =>
                bind_benign (writeMem_error m1 a2 _) fun m2 =>
                  pure_not_error _) _ h)
    | exact Or.inr ((bind_benign
        (storeRegs_error s.v_registers s.index_register s.memory _) fun m =>
        pure_not_error _) _ h)
    | exact Or.inr ((bind_benign
        (loadRegs_error s.memory s.index_register s.v_registers _) fun r =>
        pure_not_error _) _ h)
    | (unfold panic_unknown_opcode at h
       exact Or.inl (Except.error.inj h).symm)

set_option maxHeartbeats 1600000 in
/-- Every abort of the opcode matcher is either the unknown-opcode report
for exactly the fetched opcode at the current program counter, or a std
panic carrying the array length and index (or nothing), never the opcode
or the program counter. -/
theorem execOpcode_error (s : System) (opc r : Nat) (e : Err)
    (h : execOpcode s opc r = Except.error e) :
    e = Err.unknownOpcode opc s.program_counter ∨ Err.benign e := by
  have hpanic : panic_unknown_opcode s opc =
      Except.error e →
      e = Err.unknownOpcode opc s.program_counter ∨ Err.benign e := by
    intro hq
    unfold panic_unknown_opcode at hq
    exact Or.inl (Except.error.inj hq).symm
  unfold execOpcode at h
  by_cases c0 : first_nibble opc = 0
  · rw [if_pos c0] at h
    repeat' split at h
    all_goals
      first
      | exact Except.noConfusion h
      | exact Or.inr ((bind_benign (readStack_error s.stack s.stack_pointer)
          (fun ret e2 he => by
            first
            | (rw [(Except.error.inj he).symm]; trivial)
            | exact Except.noConfusion he)) _ h)
  · rw [if_neg c0] at h
    by_cases c1 : first_nibble opc = 1
    · rw [if_pos c1] at h
      exact Except.noConfusion h
    · rw [if_neg c1] at h
      by_cases c2 : first_nibble opc = 2
      · rw [if_pos c2] at h
        exact Or.inr ((bind_benign
          (writeStack_error s.stack (s.stack_pointer + 1) (s.program_counter + 2))
          fun st => pure_not_error _) _ h)
      · rw [if_neg c2] at h
        by_cases c3 : first_nibble opc = 3
        · rw [if_pos c3] at h
          repeat' split at h
          all_goals exact Except.noConfusion h
        · rw [if_neg c3] at h
          by_cases c4 : first_nibble opc = 4
          · rw [if_pos c4] at h
            repeat' split at h
            all_goals exact Except.noConfusion h
          · rw [if_neg c4] at h
            by_cases c5 : first_nibble opc = 5
            · rw [if_pos c5] at h
              repeat' split at h
              all_goals first | exact Except.noConfusion h | exact hpanic h
            · rw [if_neg c5] at h
              by_cases c6 : first_nibble opc = 6
              · rw [if_pos c6] at h
                exact Except.noConfusion h
              · rw [if_neg c6] at h
                by_cases c7 : first_nibble opc = 7
                · rw [if_pos c7] at h
                  exact Except.noConfusion h
                · rw [if_neg c7] at h
                  by_cases c8 : first_nibble opc = 8
                  · rw [if_pos c8] at h
                    exact exec8_error s opc e h
                  · rw [if_neg c8] at h
                    by_cases c9 : first_nibble opc = 9
                    · rw [if_pos c9] at h
                      repeat' split at h
                      all_goals first | exact Except.noConfusion h | exact hpanic h
                    · rw [if_neg c9] at h
                      by_cases c10 : first_nibble opc = 10
                      · rw [if_pos c10] at h
                        exact Except.noConfusion h
                      · rw [if_neg c10] at h
                        by_cases c11 : first_nibble opc = 11
                        · rw [if_pos c11] at h
                          exact Except.noConfusion h
                        · rw [if_neg c11] at h
                          by_cases c12 : first_nibble opc = 12
                          · rw [if_pos c12] at h
                            exact Except.noConfusion h
                          · rw [if_neg c12] at h
                            by_cases c13 : first_nibble opc = 13
                            · rw [if_pos c13] at h
                              exact Or.inr ((bind_benign
                                (drawSprite_error s.memory s.index_register
                                  (s.v_registers (second_nibble opc)) (s.v_registers (third_nibble opc))
                                  (fourth_nibble opc) (s.framebuffer, false)) fun res =>
                                pure_not_error _) _ h)
                            · rw [if_neg c13] at h
                              by_cases c14 : first_nibble opc = 14
                              · rw [if_pos c14] at h
                                repeat' split at h
                                all_goals first | exact Except.noConfusion h | exact hpanic h
                              · rw [if_neg c14] at h
                                by_cases c15 : first_nibble opc = 15
                                · rw [if_pos c15] at h
                                  exact execF_error s opc e h
                                · rw [if_neg c15] at h
                                  exact hpanic h

/-- Every abort of a whole cycle is either the unknown-opcode report for
exactly the fetched opcode at the current program counter, or a std panic.
-/
theorem cycle_error_classify (s : System) (r : Nat) (e : Err)
    (h : cycle s r = Except.error e) :
    e = Err.unknownOpcode
        (s.memory s.program_counter <<< 8 ||| s.memory (s.program_counter + 1))
        s.program_counter ∨ Err.benign e := by
  unfold cycle at h
  cases hm1 : readMem s.memory s.program_counter with
  | error e1 =>
      rw [hm1] at h
      have he : e1 = e := Except.error.inj h
      have hb := readMem_error s.memory s.program_counter e1 hm1
      rw [he] at hb
      exact Or.inr hb
  | ok b1 =>
      rw [hm1, bind_ok] at h
      cases hm2 : readMem s.memory (s.program_counter + 1) with
      | error e2 =>
          rw [hm2] at h
          have he : e2 = e := Except.error.inj h
          have hb := readMem_error s.memory (s.program_counter + 1) e2 hm2
          rw [he] at hb
          exact Or.inr hb
      | ok b2 =>
          rw [hm2, bind_ok] at h
          have hb1 : b1 = s.memory s.program_counter := by
            unfold readMem at hm1
            split at hm1
            · exact (Except.ok.inj hm1).symm
            · exact absurd hm1 (by simp)
          have hb2 : b2 = s.memory (s.program_counter + 1) := by
            unfold readMem at hm2
            split at hm2
            · exact (Except.ok.inj hm2).symm
            · exact absurd hm2 (by simp)
          rcases execOpcode_error s ((b1 <<< 8) ||| b2) r e h with heq | hben
          · rw [hb1, hb2] at heq
            exact Or.inl heq
          · exact Or.inr hben

/-- A state about to execute `F1 33` (decimal store) with the index register
at 4094, so the third digit write lands at address 4096, out of bounds. -/
def c9OobState : System :=
  { zeroState with
    memory := upd (upd zeroState.memory 0x200 0xF1) 0x201 0x33,
    index_register := 4094 }

/-- **C9, counterexample.** An out-of-bounds memory address aborts execution,
but its diagnostic is the std `index out of bounds` panic carrying the array
length and the offending index — not the opcode and program counter the
claim requires. -/
theorem oob_abort_lacks_opcode_pc :
    cycle c9OobState 0 = Except.error (.indexOutOfBounds 4096 4096) ∧
      ¬reportsOpcodeAndPc (.indexOutOfBounds 4096 4096) :=
  ⟨rfl, fun h => h⟩

/-- **C9, amended.** Every execution error aborts the cycle immediately with
no recovery path: the run loop propagates any error unchanged.  An
unrecognized opcode aborts with a diagnostic reporting exactly the fetched
opcode and the current program-counter value, and those are the ONLY
diagnostics carrying the opcode and program counter.  Out-of-bounds memory
addresses and call-stack overflow abort through std `index out of bounds`
panics whose payload is the array length (the memory's or the stack's) and
the index, and call-stack underflow aborts through the std checked-subtract
panic carrying nothing — none of them report the opcode or program
counter. -/
theorem execution_error_reporting (s : System) (r : Nat) (o : FrameOracle) :
    (∀ e, cycle s o.rand = Except.error e →
      s.cycles_in_current_frame < CYCLES_PER_FRAME →
      runStep s o = Except.error e) ∧
    (∀ op p, cycle s r = Except.error (.unknownOpcode op p) →
      op = s.memory s.program_counter <<< 8 ||| s.memory (s.program_counter + 1) ∧
      p = s.program_counter ∧ reportsOpcodeAndPc (.unknownOpcode op p)) ∧
    (∀ e, cycle s r = Except.error e → reportsOpcodeAndPc e →
      e = Err.unknownOpcode
        (s.memory s.program_counter <<< 8 ||| s.memory (s.program_counter + 1))
        s.program_counter) ∧
    (∀ l i, cycle s r = Except.error (.indexOutOfBounds l i) →
      (l = MEMORY_SIZE ∨ l = STACK_SIZE) ∧
      ¬reportsOpcodeAndPc (.indexOutOfBounds l i)) ∧
    (∀ a b, a < 16 → b < 256 →
      s.memory s.program_counter = 32 + a →
      s.memory (s.program_counter + 1) = b →
      s.program_counter + 1 < MEMORY_SIZE →
      STACK_SIZE ≤ s.stack_pointer + 1 →
      cycle s r =
        Except.error (.indexOutOfBounds STACK_SIZE (s.stack_pointer + 1)) ∧
      ¬reportsOpcodeAndPc (.indexOutOfBounds STACK_SIZE (s.stack_pointer + 1))) ∧
    (s.memory s.program_counter = 0 →
      s.memory (s.program_counter + 1) = 0xEE →
      s.program_counter + 1 < MEMORY_SIZE →
      s.stack_pointer = 0 →
      cycle s r = Except.error .arithOverflow ∧
      ¬reportsOpcodeAndPc .arithOverflow) := by
  refine ⟨?_, ?_, ?_, ?_, ?_, ?_⟩
  · intro e hc hlt
    unfold runStep
    rw [if_pos hlt, hc]
    rfl
  · intro op p hu
    rcases cycle_error_classify s r _ hu with heq | hben
    · exact ⟨(Err.unknownOpcode.inj heq).1, (Err.unknownOpcode.inj heq).2,
        trivial⟩
    · exact False.elim hben
  · intro e he hrep
    rcases cycle_error_classify s r e he with heq | hben
    · exact heq
    · cases e with
      | unknownOpcode op p => exact False.elim hben
      | indexOutOfBounds l i => exact False.elim hrep
      | arithOverflow => exact False.elim hrep
  · intro l i hoob
    rcases cycle_error_classify s r _ hoob with heq | hben
    · exact Err.noConfusion heq
    · exact ⟨hben, fun hh => hh⟩
  · intro a b ha hb hb0 hb1 hpc hsp
    constructor
    · rw [cycle_eq s r hpc (by rw [hb1]; omega), hb0, hb1]
      have hfn : first_nibble ((32 + a) * 256 + b) = 2 := by
        rw [first_nibble_eq_div]; omega
      unfold execOpcode
      rw [hfn]
      norm_num
      unfold writeStack
      rw [if_neg (by
        have hss : STACK_SIZE = 25 := rfl
        omega)]
      rfl
    · exact fun hh => hh
  · intro hb0 hb1 hpc hsp
    constructor
    · rw [cycle_eq s r hpc (by rw [hb1]; norm_num), hb0, hb1]
      have h238 : (0 : Nat) * 256 + 238 = 238 := by norm_num
      rw [h238]
      have hfn : first_nibble 238 = 0 := by decide
      unfold execOpcode
      rw [hfn]
      norm_num
      rw [hsp]
      unfold readStack
      rw [if_pos (by decide)]
      rfl
    · exact fun hh => hh

/-- A state about to execute the unrecognized opcode `5101` (the `0x5` family
requires a zero fourth nibble). -/
def c9UnknownState : System :=
  { zeroState with memory := upd (upd zeroState.memory 0x200 0x51) 0x201 0x01 }

/-- A state about to execute `2300` (call `0x300`) with the stack pointer at
24 — the push targets slot 25 of the 25-slot stack, a call-stack overflow. -/
def c9OverflowState : System :=
  { zeroState with
    memory := upd (upd zeroState.memory 0x200 0x23) 0x201 0x00,
    stack_pointer := 24 }

/-- A state about to execute `00EE` (return) with the stack pointer at 0 — a
call-stack underflow in the pointer decrement. -/
def c9UnderflowState : System :=
  { zeroState with memory := upd (upd zeroState.memory 0x200 0x00) 0x201 0xEE }

/-- Witness for `execution_error_reporting`: the unrecognized opcode `5101`
aborts reporting exactly that opcode and its address; a call with a full
stack aborts with the stack's `index out of bounds` panic; a return with an
empty stack aborts with the checked-arithmetic panic; neither of the latter
reports the opcode or program counter. -/
theorem execution_error_reporting_witness :
    (cycle c9UnknownState 0 = Except.error (.unknownOpcode 0x5101 0x200) ∧
      0x5101 = c9UnknownState.memory c9UnknownState.program_counter <<< 8 |||
        c9UnknownState.memory (c9UnknownState.program_counter + 1) ∧
      0x200 = c9UnknownState.program_counter) ∧
    (cycle c9OverflowState 0 = Except.error
        (.indexOutOfBounds STACK_SIZE (c9OverflowState.stack_pointer + 1)) ∧
      ¬reportsOpcodeAndPc
        (.indexOutOfBounds STACK_SIZE (c9OverflowState.stack_pointer + 1))) ∧
    (cycle c9UnderflowState 0 = Except.error .arithOverflow ∧
      ¬reportsOpcodeAndPc .arithOverflow) := by
  refine ⟨⟨rfl, ?_, ?_⟩, ?_, ?_⟩
  · exact ((execution_error_reporting c9UnknownState 0 c2Oracle).2.1 0x5101
      0x200 rfl).1
  · exact ((execution_error_reporting c9UnknownState 0 c2Oracle).2.1 0x5101
      0x200 rfl).2.1
  · exact (execution_error_reporting c9OverflowState 0 c2Oracle).2.2.2.2.1 3 0
      (by decide) (by decide) (by decide) (by decide) (by decide) (by decide)
  · exact (execution_error_reporting c9UnderflowState 0 c2Oracle).2.2.2.2.2
      (by decide) (by decide) (by decide) (by decide)

/-! ## C5: sprite draw (Dxyn) -/

/-- The framebuffer index touched by the inner loop at `x_index = xi` of row
`y_index = yi`: both coordinates wrap independently per pixel. -/
def rowIdx (top_x top_y yi xi : Nat) : Nat :=
  ((top_y + yi) % SCREEN_HEIGHT) * SCREEN_WIDTH +
    ((top_x + (7 - xi)) % SCREEN_WIDTH)

/-- The framebuffer index of the sprite pixel at column offset `c` of row
`rr`, in the claim's orientation (column 0 is the sprite's leftmost pixel,
blitted from the row byte's most significant bit). -/
def pixelIndex (top_x top_y rr c : Nat) : Nat :=
  ((top_y + rr) % SCREEN_HEIGHT) * SCREEN_WIDTH + ((top_x + c) % SCREEN_WIDTH)

/-- The sprite bit blitted at row `rr`, column offset `c`: bit `7 - c` of the
row byte at `I + rr`. -/
def spriteBit (mem : Nat → Nat) (I rr c : Nat) : Nat :=
  (mem (I + rr) >>> (7 - c)) &&& 1

theorem rowIdx_inj (top_x top_y yi : Nat) {a b : Nat} (ha : a < 8) (hb : b < 8)
    (h : rowIdx top_x top_y yi a = rowIdx top_x top_y yi b) : a = b := by
  simp only [rowIdx, SCREEN_WIDTH, SCREEN_HEIGHT] at h
  omega

/-- Pointwise characterization of the inner blit loop over
`x_index = 0, …, k - 1`. -/
theorem drawRow_spec (bitmap top_x top_y yi : Nat) (k : Nat) (hk : k ≤ 8)
    (fb : Nat → Nat) (hid : Bool) :
    (∀ xi, xi < k →
      (drawRow bitmap top_x top_y yi k (fb, hid)).1 (rowIdx top_x top_y yi xi) =
        ((bitmap >>> xi) &&& 1) ^^^ fb (rowIdx top_x top_y yi xi)) ∧
    (∀ j, (∀ xi, xi < k → j ≠ rowIdx top_x top_y yi xi) →
      (drawRow bitmap top_x top_y yi k (fb, hid)).1 j = fb j) ∧
    ((drawRow bitmap top_x top_y yi k (fb, hid)).2 = true ↔ hid = true ∨
      ∃ xi, xi < k ∧
        ((bitmap >>> xi) &&& 1) ^^^ fb (rowIdx top_x top_y yi xi) = 0 ∧
        fb (rowIdx top_x top_y yi xi) ≠ 0) := by
  induction k with
  | zero =>
      refine ⟨fun xi hxi => absurd hxi (by omega), fun j _ => rfl, ?_⟩
      simp only [drawRow]
      constructor
      · intro hh
        exact Or.inl hh
      · rintro (hh | ⟨xi, hxi, _⟩)
        · exact hh
        · exact absurd hxi (by omega)
  | succ k ih =>
      obtain ⟨ia, ib, ic⟩ := ih (by omega)
      have hne : ∀ xi, xi < k →
          rowIdx top_x top_y yi k ≠ rowIdx top_x top_y yi xi := by
        intro xi hxi h
        have := rowIdx_inj top_x top_y yi (by omega) (by omega) h
        omega
      have hfb1 : (drawRow bitmap top_x top_y yi k (fb, hid)).1
          (rowIdx top_x top_y yi k) = fb (rowIdx top_x top_y yi k) :=
        ib _ hne
      have hstep : drawRow bitmap top_x top_y yi (k + 1) (fb, hid) =
          drawPixel bitmap top_x top_y yi k
            (drawRow bitmap top_x top_y yi k (fb, hid)) := rfl
      have hpix : drawPixel bitmap top_x top_y yi k
          (drawRow bitmap top_x top_y yi k (fb, hid)) =
          (upd (drawRow bitmap top_x top_y yi k (fb, hid)).1
            (rowIdx top_x top_y yi k)
            (((bitmap >>> k) &&& 1) ^^^
              (drawRow bitmap top_x top_y yi k (fb, hid)).1
                (rowIdx top_x top_y yi k)),
           if (drawRow bitmap top_x top_y yi k (fb, hid)).2 = false ∧
              ((bitmap >>> k) &&& 1) ^^^
                (drawRow bitmap top_x top_y yi k (fb, hid)).1
                  (rowIdx top_x top_y yi k) = 0 ∧
              (drawRow bitmap top_x top_y yi k (fb, hid)).1
                (rowIdx top_x top_y yi k) ≠ 0 then true
           else (drawRow bitmap top_x top_y yi k (fb, hid)).2) := rfl
      rw [hstep, hpix]
      refine ⟨?_, ?_, ?_⟩
      · intro xi hxi
        rcases Nat.lt_succ_iff_lt_or_eq.mp hxi with hlt | rfl
        · dsimp only
          rw [upd_ne _ _ _ _ fun hh => hne xi hlt hh.symm]
          exact ia xi hlt
        · dsimp only
          rw [upd_same, hfb1]
      · intro j hj
        dsimp only
        rw [upd_ne _ _ _ _ (hj k (by omega))]
        exact ib j fun xi hxi => hj xi (by omega)
      · dsimp only
        rw [hfb1]
        constructor
        · intro hh
          split at hh
          · rename_i hcond
            exact Or.inr ⟨k, by omega, hcond.2.1, hcond.2.2⟩
          · rcases ic.mp hh with h1 | ⟨xi, hxi, h2, h3⟩
            · exact Or.inl h1
            · exact Or.inr ⟨xi, by omega, h2, h3⟩
        · intro hh
          split
          · rfl
          · rename_i hcond
            rcases hh with h1 | ⟨xi, hxi, h2, h3⟩
            · exact ic.mpr (Or.inl h1)
            · rcases Nat.lt_succ_iff_lt_or_eq.mp hxi with hlt | rfl
              · exact ic.mpr (Or.inr ⟨xi, hlt, h2, h3⟩)
              · by_cases hh1 : (drawRow bitmap top_x top_y yi xi (fb, hid)).2 = true
                · exact hh1
                · exact absurd ⟨by simpa using hh1, h2, h3⟩ hcond

/-- Reorienting the inner-loop index: `x_index = xi` touches the sprite
column `7 - xi`. -/
theorem rowIdx_eq_pixelIndex (tx ty rr xi : Nat) :
    rowIdx tx ty rr xi = pixelIndex tx ty rr (7 - xi) := rfl

theorem spriteBit_eq (mem : Nat → Nat) (I n xi : Nat) (hxi : xi < 8) :
    spriteBit mem I n (7 - xi) = (mem (I + n) >>> xi) &&& 1 := by
  simp only [spriteBit]
  have h7 : 7 - (7 - xi) = xi := by omega
  rw [h7]

theorem pixelIndex_row_ne (tx ty : Nat) {r1 r2 : Nat} (h1 : r1 < 32)
    (h2 : r2 < 32) (hne : r1 ≠ r2) (c1 c2 : Nat) :
    pixelIndex tx ty r1 c1 ≠ pixelIndex tx ty r2 c2 := by
  simp only [pixelIndex, SCREEN_WIDTH, SCREEN_HEIGHT]
  omega

/-- Pointwise characterization of the whole blit: each of the `n` rows of 8
sprite bits is XOR-ed into the framebuffer with per-pixel wrapping, all other
cells are unchanged, and the hidden flag records whether some touched pixel
went from set to unset. -/
theorem drawSprite_spec (mem : Nat → Nat) (I top_x top_y : Nat) (n : Nat)
    (hn : n ≤ 32) (hmem : I + n ≤ MEMORY_SIZE) (fb : Nat → Nat) (hid : Bool) :
    ∃ fb1 hid1,
      drawSprite mem I top_x top_y n (fb, hid) = Except.ok (fb1, hid1) ∧
      (∀ rr, rr < n → ∀ c, c < 8 →
        fb1 (pixelIndex top_x top_y rr c) =
          spriteBit mem I rr c ^^^ fb (pixelIndex top_x top_y rr c)) ∧
      (∀ j, (∀ rr, rr < n → ∀ c, c < 8 → j ≠ pixelIndex top_x top_y rr c) →
        fb1 j = fb j) ∧
      (hid1 = true ↔ hid = true ∨ ∃ rr, rr < n ∧ ∃ c, c < 8 ∧
        spriteBit mem I rr c ^^^ fb (pixelIndex top_x top_y rr c) = 0 ∧
        fb (pixelIndex top_x top_y rr c) ≠ 0) := by
  induction n with
  | zero =>
      refine ⟨fb, hid, rfl, fun rr hrr => absurd hrr (by omega), fun j _ => rfl, ?_⟩
      constructor
      · exact fun hh => Or.inl hh
      · rintro (hh | ⟨rr, hrr, _⟩)
        · exact hh
        · exact absurd hrr (by omega)
  | succ n ih =>
      obtain ⟨fb1, hid1, hok, ia, ib, ic⟩ := ih (by omega) (by omega)
      obtain ⟨ra, rb, rc⟩ :=
        drawRow_spec (mem (I + n)) top_x top_y n 8 (by omega) fb1 hid1
      have hms : MEMORY_SIZE = 4096 := rfl
      have hstep : drawSprite mem I top_x top_y (n + 1) (fb, hid) =
          Except.ok (drawRow (mem (I + n)) top_x top_y n 8 (fb1, hid1)) := by
        show (drawSprite mem I top_x top_y n (fb, hid) >>= fun acc1 =>
          addU16 I n >>= fun addr => readMem mem addr >>= fun bitmap =>
            pure (drawRow bitmap top_x top_y n 8 acc1)) = _
        rw [hok, bind_ok, addU16_lt _ _ (by omega), bind_ok,
          readMem_lt _ _ (by omega), bind_ok]
        rfl
      -- row n reads the original framebuffer values: its pixels are
      -- untouched by rows 0..n-1
      have hfb1row : ∀ c, c < 8 →
          fb1 (pixelIndex top_x top_y n c) = fb (pixelIndex top_x top_y n c) := by
        intro c hc
        exact ib _ fun rr hrr c2 hc2 =>
          pixelIndex_row_ne top_x top_y (by omega) (by omega) (by omega) c c2
      refine ⟨(drawRow (mem (I + n)) top_x top_y n 8 (fb1, hid1)).1,
        (drawRow (mem (I + n)) top_x top_y n 8 (fb1, hid1)).2, hstep, ?_, ?_, ?_⟩
      · intro rr hrr c hc
        rcases Nat.lt_succ_iff_lt_or_eq.mp hrr with hlt | rfl
        · have huntouched : ∀ xi, xi < 8 →
              pixelIndex top_x top_y rr c ≠ rowIdx top_x top_y n xi := by
            intro xi hxi
            rw [rowIdx_eq_pixelIndex]
            exact pixelIndex_row_ne top_x top_y (by omega) (by omega)
              (by omega) c (7 - xi)
          rw [rb _ huntouched]
          exact ia rr hlt c hc
        · have h7c : 7 - (7 - c) = c := by omega
          have hh := ra (7 - c) (by omega)
          rw [rowIdx_eq_pixelIndex, h7c] at hh
          rw [hh, hfb1row c hc]
          rfl
      · intro j hj
        have huntouched : ∀ xi, xi < 8 → j ≠ rowIdx top_x top_y n xi := by
          intro xi hxi
          rw [rowIdx_eq_pixelIndex]
          exact hj n (by omega) (7 - xi) (by omega)
        rw [rb _ huntouched]
        exact ib j fun rr hrr c hc => hj rr (by omega) c hc
      · rw [rc]
        constructor
        · rintro (h1 | ⟨xi, hxi, h2, h3⟩)
          · rcases ic.mp h1 with hh | ⟨rr, hrr, c, hc, h4, h5⟩
            · exact Or.inl hh
            · exact Or.inr ⟨rr, by omega, c, hc, h4, h5⟩
          · have hf := hfb1row (7 - xi) (by omega)
            rw [← rowIdx_eq_pixelIndex] at hf
            refine Or.inr ⟨n, by omega, 7 - xi, by omega, ?_, ?_⟩
            · rw [spriteBit_eq mem I n xi hxi, ← rowIdx_eq_pixelIndex, ← hf]
              exact h2
            · rw [← rowIdx_eq_pixelIndex, ← hf]
              exact h3
        · rintro (hh | ⟨rr, hrr, c, hc, h4, h5⟩)
          · exact Or.inl (ic.mpr (Or.inl hh))
          · rcases Nat.lt_succ_iff_lt_or_eq.mp hrr with hlt | rfl
            · exact Or.inl (ic.mpr (Or.inr ⟨rr, hlt, c, hc, h4, h5⟩))
            · have h7c : 7 - (7 - c) = c := by omega
              refine Or.inr ⟨7 - c, by omega, ?_, ?_⟩
              · rw [rowIdx_eq_pixelIndex, h7c, hfb1row c hc]
                exact h4
              · rw [rowIdx_eq_pixelIndex, h7c, hfb1row c hc]
                exact h5

/-- **C5.** Executing `Dxyn` with in-bounds sprite memory XOR-s each of the
`n` rows of 8 sprite bits into the framebuffer at coordinates taken from
registers `x` and `y`, the x coordinate reduced modulo the screen width and
the y coordinate modulo the screen height independently for each pixel;
every other framebuffer cell is unchanged; and afterwards the flag register
equals 1 if at least one framebuffer pixel transitioned from set to unset,
and 0 otherwise. -/
theorem sprite_draw (s : System) (r x y n : Nat)
    (hx : x < 16) (hy : y < 16) (hn : n < 16)
    (hpc : s.program_counter + 1 < MEMORY_SIZE)
    (hb0 : s.memory s.program_counter = 208 + x)
    (hb1 : s.memory (s.program_counter + 1) = 16 * y + n)
    (hsprite : s.index_register + n ≤ MEMORY_SIZE) :
    ∃ s1, cycle s r = Except.ok s1 ∧
      s1.program_counter = s.program_counter + 2 ∧
      s1.memory = s.memory ∧
      s1.index_register = s.index_register ∧
      (∀ i, i ≠ 15 → s1.v_registers i = s.v_registers i) ∧
      (∀ rr, rr < n → ∀ c, c < 8 →
        s1.framebuffer (pixelIndex (s.v_registers x) (s.v_registers y) rr c) =
          spriteBit s.memory s.index_register rr c ^^^
            s.framebuffer
              (pixelIndex (s.v_registers x) (s.v_registers y) rr c)) ∧
      (∀ j, (∀ rr, rr < n → ∀ c, c < 8 →
          j ≠ pixelIndex (s.v_registers x) (s.v_registers y) rr c) →
        s1.framebuffer j = s.framebuffer j) ∧
      ((∃ j, s.framebuffer j ≠ 0 ∧ s1.framebuffer j = 0) →
        s1.v_registers 15 = 1) ∧
      ((¬∃ j, s.framebuffer j ≠ 0 ∧ s1.framebuffer j = 0) →
        s1.v_registers 15 = 0) := by
  obtain ⟨fb1, hid1, hok, pa, pb, pc2⟩ :=
    drawSprite_spec s.memory s.index_register (s.v_registers x)
      (s.v_registers y) n (by omega) hsprite s.framebuffer false
  have hfn : first_nibble ((208 + x) * 256 + (16 * y + n)) = 13 := by
    rw [first_nibble_eq_div]; omega
  have hsn : second_nibble ((208 + x) * 256 + (16 * y + n)) = x := by
    rw [second_nibble_eq_div_mod]; omega
  have htn : third_nibble ((208 + x) * 256 + (16 * y + n)) = y := by
    rw [third_nibble_eq_div_mod]; omega
  have hfo : fourth_nibble ((208 + x) * 256 + (16 * y + n)) = n := by
    rw [fourth_nibble_eq_mod]; omega
  have hcyc : cycle s r = Except.ok
      ({ s with
          framebuffer := fb1,
          v_registers := upd s.v_registers 15 (if hid1 then 1 else 0),
          program_counter := s.program_counter + 2 }) := by
    rw [cycle_eq s r hpc (by rw [hb1]; omega), hb0, hb1]
    unfold execOpcode
    rw [hfn]
    norm_num
    rw [hsn, htn, hfo, hok]
    rfl
  refine ⟨_, hcyc, rfl, rfl, rfl, ?_, ?_, ?_, ?_, ?_⟩
  · intro i hi
    dsimp only
    rw [upd_ne _ _ _ _ hi]
  · intro rr hrr c hc
    dsimp only
    exact pa rr hrr c hc
  · intro j hj
    dsimp only
    exact pb j hj
  · rintro ⟨j, hj0, hj1⟩
    dsimp only at hj1 ⊢
    rw [upd_same]
    have hhid : hid1 = true := by
      by_cases htouch : ∀ rr, rr < n → ∀ c, c < 8 →
          j ≠ pixelIndex (s.v_registers x) (s.v_registers y) rr c
      · exact absurd (pb j htouch ▸ hj1) hj0
      · push_neg at htouch
        obtain ⟨rr, hrr, c, hc, hjeq⟩ := htouch
        subst hjeq
        apply pc2.mpr
        refine Or.inr ⟨rr, hrr, c, hc, ?_, hj0⟩
        rw [← pa rr hrr c hc]
        exact hj1
    rw [hhid]
    simp
  · intro hne
    dsimp only
    rw [upd_same]
    have hhid : hid1 = false := by
      by_contra hcon
      have ht : hid1 = true := by
        cases hid1
        · exact absurd rfl hcon
        · rfl
      rcases pc2.mp ht with hfalse | ⟨rr, hrr, c, hc, hbit, hfb⟩
      · exact Bool.noConfusion hfalse
      · exact hne ⟨pixelIndex (s.v_registers x) (s.v_registers y) rr c, hfb, by
          dsimp only
          rw [pa rr hrr c hc]
          exact hbit⟩
    rw [hhid]
    simp

/-- A state about to execute `D121` (draw the 1-row sprite at the index
register at coordinates from registers 1 and 2, both 0), with sprite byte
`0xFF` at `0x300` and an all-clear framebuffer. -/
def c5State : System :=
  { zeroState with
    memory := upd (upd (upd zeroState.memory 0x200 0xD1) 0x201 0x21) 0x300 0xFF,
    index_register := 0x300 }

/-- Witness for `sprite_draw`: blitting a fully-set row onto a clear screen
sets the first pixel, leaves cell 8 untouched, and reports no collision. -/
theorem sprite_draw_witness :
    ∃ s1, cycle c5State 0 = Except.ok s1 ∧
      s1.framebuffer
          (pixelIndex (c5State.v_registers 1) (c5State.v_registers 2) 0 0) = 1 ∧
      s1.framebuffer 8 = 0 ∧
      s1.v_registers 15 = 0 := by
  obtain ⟨s1, hok, hpc2, hmem, hidx, hregs, hblit, hrest, hflag1, hflag0⟩ :=
    sprite_draw c5State 0 1 2 1 (by decide) (by decide) (by decide) (by decide)
      (by decide) (by decide) (by decide)
  refine ⟨s1, hok, ?_, ?_, ?_⟩
  · rw [hblit 0 (by decide) 0 (by decide)]
    decide
  · rw [hrest 8 (by decide)]
    decide
  · exact hflag0 fun ⟨j, hj0, _⟩ => hj0 rfl

end Chirpy
